import Mathlib

/-!
Shallow embedding of `galSimInterpreter.py` (sims_GalSimInterface).

Python floats are modelled as rationals; numpy pixel arrays as lists of rows
of rationals.  The GalSim rendering engine, the camera-geometry collaborator
and the noise collaborator are opaque and appear as function-valued
parameters (`Collab`, `StampContext`, `SiliconExtras`).  File side effects
(the pickle written by `write_checkpoint`, centroid files, FITS output) are
modelled as produced values; in-memory state is threaded explicitly.
-/

namespace GalSimSpec

/-- A pixel array: a list of rows, each a list of pixel values
(the `array` attribute of a `galsim.Image`). -/
abbrev PixArray := List (List ℚ)

/-- Elementwise addition of two pixel arrays (`image += array`). -/
def addArray (a b : PixArray) : PixArray :=
  List.zipWith (fun r1 r2 => List.zipWith (fun x y => x + y) r1 r2) a b

/-- A `galsim.Image`: its pixel data.  The wcs handle is opaque and plays no
role in the claims. -/
structure GSImage where
  pix : PixArray
deriving DecidableEq

/-- `galsim.BoundsI`: inclusive integer pixel bounds. -/
structure BoundsI where
  xmin : ℤ
  xmax : ℤ
  ymin : ℤ
  ymax : ℤ
deriving DecidableEq

/-- `bounds1 & bounds2` for `galsim.BoundsI`. -/
def BoundsI.intersect (a b : BoundsI) : BoundsI :=
  ⟨max a.xmin b.xmin, min a.xmax b.xmax, max a.ymin b.ymin, min a.ymax b.ymax⟩

/-- `bounds.isDefined()`: nonempty bounds. -/
def BoundsI.isDefinedB (b : BoundsI) : Bool :=
  decide (b.xmin ≤ b.xmax) && decide (b.ymin ≤ b.ymax)

/-- x coordinate of `bounds.true_center`. -/
def BoundsI.trueCenterX (b : BoundsI) : ℚ := ((b.xmin : ℚ) + (b.xmax : ℚ)) / 2

/-- y coordinate of `bounds.true_center`. -/
def BoundsI.trueCenterY (b : BoundsI) : ℚ := ((b.ymin : ℚ) + (b.ymax : ℚ)) / 2

/-- `GalSimDetector`: the detector data read by the interpreter (name, pupil
bounds in arcsec, pixel bounds, center pixel, gain). -/
structure GalSimDetector where
  name : String
  fileName : String
  xMinArcsec : ℚ
  xMaxArcsec : ℚ
  yMinArcsec : ℚ
  yMaxArcsec : ℚ
  xMinPix : ℤ
  xMaxPix : ℤ
  yMinPix : ℤ
  yMaxPix : ℤ
  xCenterPix : ℚ
  yCenterPix : ℚ
  gain : ℚ
deriving DecidableEq

/-- A centered GalSim `GSObject` as the engine exposes it to the interpreter:
`getGoodImageSize(pixel_scale)` (an integer size) and the surface-brightness
primitive `xValue(x, y)`. -/
structure GSObjectProfile where
  getGoodImageSize : ℚ → ℕ
  xValue : ℚ → ℚ → ℚ

/-- `GalSimCelestialObject` fields read by the interpreter. -/
structure GSCelestialObject where
  uniqueId : ℕ
  galSimType : String
  xPupilArcsec : ℚ
  yPupilArcsec : ℚ
  xPupilRadians : ℚ
  yPupilRadians : ℚ
  flux : String → ℚ

/-- The opaque collaborators of the base interpreter: `galsim.PoissonDeviate`
sampling (state type `σ`), the per-kind profile construction (PSF applied),
the noise wrapper, `pixelCoordsFromPupilCoords`, and the photon-shooting
`drawImage` (profile, realized flux, offset, gain, rng, image). -/
structure Collab (σ : Type) where
  poisson : σ → ℚ → ℚ × σ
  psfConfigured : Bool
  pointOf : GSCelestialObject → GSObjectProfile
  sersicOf : GSCelestialObject → GSObjectProfile
  randomWalkOf : GSCelestialObject → GSObjectProfile
  fitsImageOf : GSCelestialObject → GSObjectProfile
  noise : Option (String → GalSimDetector → GSImage → GSImage)
  pixelCoords : GalSimDetector → ℚ → ℚ → ℚ × ℚ
  shoot : GSObjectProfile → ℚ → ℚ × ℚ → ℚ → σ → GSImage → GSImage × σ

/-- The mutable state of a `GalSimInterpreter` (the blank-image cache is a
pure memoisation of `blankImage` and is dropped; copies of the cached blank
are returned, so contents are unaffected). -/
structure InterpState (σ : Type) where
  checkpoint_file : Option String
  nobj_checkpoint : ℕ
  detectors : List GalSimDetector
  bandpassNames : List String
  detectorImages : List (String × GSImage)
  drawn_objects : Finset ℕ
  centroid_base_name : Option String
  centroid_list : List (String × String × ℕ × ℚ × ℚ × ℚ)
  rng : σ
deriving DecidableEq

/-- `GalSimInterpreter.__init__`: raises when `detectors is None`, otherwise
builds the fresh state (empty image map, empty drawn set, cadence 1000). -/
def mkGalSimInterpreter {σ : Type} (detectors : Option (List GalSimDetector))
    (bandpassNames : List String) (rng0 : σ) : Except String (InterpState σ) :=
  match detectors with
  | none => .error
      ("Will not create images; you passed no detectors to the GalSimInterpreter")
  | some ds => .ok ⟨none, 1000, ds, bandpassNames, [], ∅, none, [], rng0⟩

/-- `GalSimInterpreter._getFileName`. -/
def getFileName (det : GalSimDetector) (bandpassName : String) : String :=
  det.fileName ++ "_" ++ bandpassName ++ ".fits"

/-- `GalSimInterpreter.blankImage`: a zero image dimensioned
`(xMaxPix-xMinPix+1) x (yMaxPix-yMinPix+1)` for the detector. -/
def blankImage (det : GalSimDetector) : GSImage :=
  ⟨List.replicate (det.yMaxPix - det.yMinPix + 1).toNat
    (List.replicate (det.xMaxPix - det.xMinPix + 1).toNat 0)⟩

/-- Lookup in the `detectorImages` dict. -/
def lookupImage (l : List (String × GSImage)) (k : String) : Option GSImage :=
  (l.find? (fun p => p.1 = k)).map (fun p => p.2)

/-- `self.detectorImages[key] = img`: replace in place, else append
(python dicts preserve insertion order). -/
def setImage (l : List (String × GSImage)) (k : String) (v : GSImage) :
    List (String × GSImage) :=
  match l with
  | [] => [(k, v)]
  | p :: rest => if p.1 = k then (k, v) :: rest else p :: setImage rest k v

/-- `GalSimInterpreter.createCenteredObject`: dynamic dispatch on the
`galSimType` string; a point source without any configured PSF raises, and
an unrecognized kind raises.  (In the source the unrecognized-kind `raise`
statement spells the message with an undefined name `gsobject` — a Python
`NameError` results instead of the intended `RuntimeError`; either way an
exception is raised at this point, which we model as `.error`.) -/
def createCenteredObject {σ : Type} (C : Collab σ) (g : GSCelestialObject) :
    Except String GSObjectProfile :=
  if g.galSimType = "sersic" then .ok (C.sersicOf g)
  else if g.galSimType = "pointSource" then
    (if C.psfConfigured then .ok (C.pointOf g)
     else .error ("Cannot draw a point source in GalSim without a PSF"))
  else if g.galSimType = "RandomWalk" then .ok (C.randomWalkOf g)
  else if g.galSimType = "FitsImage" then .ok (C.fitsImageOf g)
  else .error ("Apologies: the GalSimInterpreter does not yet have a method to draw "
      ++ g.galSimType ++ " objects")

/-- The per-detector overlap test of `findAllDetectors`:
`min(xmax, dd.xMaxArcsec) > max(xmin, dd.xMinArcsec)` on both axes. -/
def overlapsBB (xmin xmax ymin ymax : ℚ) (dd : GalSimDetector) : Bool :=
  decide (max xmin dd.xMinArcsec < min xmax dd.xMaxArcsec) &&
    decide (max ymin dd.yMinArcsec < min ymax dd.yMaxArcsec)

/-- `GalSimInterpreter.findAllDetectors`: build the conservative bounding box
from the centered profile's natural size (at unit pixel scale) times
`conservative_factor`, filter the detector list by strict 1-D overlap on
both axes, and build the `//`-joined name string (`None` when empty). -/
def findAllDetectors {σ : Type} (C : Collab σ) (s : InterpState σ)
    (g : GSCelestialObject) (conservative_factor : ℚ) :
    Except String (Option String × List GalSimDetector × GSObjectProfile) :=
  match createCenteredObject C g with
  | .error e => .error e
  | .ok centeredObj =>
    let sizeArcsec : ℚ := (centeredObj.getGoodImageSize 1 : ℚ) * conservative_factor
    let xmax := g.xPupilArcsec + sizeArcsec / 2
    let xmin := g.xPupilArcsec - sizeArcsec / 2
    let ymax := g.yPupilArcsec + sizeArcsec / 2
    let ymin := g.yPupilArcsec - sizeArcsec / 2
    let outputList := s.detectors.filter (overlapsBB xmin xmax ymin ymax)
    let str := outputList.foldl
      (fun acc dd => if acc = "" then acc ++ dd.name else acc ++ "//" ++ dd.name) ""
    .ok ((if str = "" then none else some str), outputList, centeredObj)

/-- The flux-realization list comprehension
`[galsim.PoissonDeviate(self._rng, mean=f)() for f in fluxes]`: one Poisson
draw per band, threading the shared rng left to right. -/
def realizeFluxes {σ : Type} (P : σ → ℚ → ℚ × σ) (r : σ) (means : List ℚ) :
    List ℚ × σ :=
  match means with
  | [] => ([], r)
  | m :: ms =>
    let vr := P r m
    let rest := realizeFluxes P vr.2 ms
    (vr.1 :: rest.1, rest.2)

/-- `all([f == 0 for f in realized_fluxes])`. -/
def allZeroQ (l : List ℚ) : Bool := l.all (fun f => f == 0)

/-- One step of `_addNoiseAndBackground`: create and background-initialize
the (detector, band) image on first touch, never again.  (The forced
checkpoint written right after a new target's noise injection is a file
side effect and leaves the in-memory state unchanged.) -/
def touchTarget {σ : Type} (C : Collab σ) (det : GalSimDetector)
    (bandpassName : String) (s : InterpState σ) : InterpState σ :=
  let name := getFileName det bandpassName
  if (lookupImage s.detectorImages name).isSome then s
  else
    let img0 := blankImage det
    let img1 := match C.noise with
      | none => img0
      | some nf => nf bandpassName det img0
    { s with detectorImages := s.detectorImages ++ [(name, img1)] }

/-- `GalSimInterpreter._addNoiseAndBackground`: detectors outer, bands inner. -/
def addNoiseAndBackground {σ : Type} (C : Collab σ) (s : InterpState σ)
    (detectorList : List GalSimDetector) : InterpState σ :=
  detectorList.foldl
    (fun acc det => s.bandpassNames.foldl (fun a2 b => touchTarget C det b a2) acc) s

/-- The body of the base drawObject's per-(band, detector) loop: pixel
position, offset from the detector center, photon-shooting draw with
`add_to_image=True`, and the optional centroid entry. -/
def drawOnePair {σ : Type} (C : Collab σ) (g : GSCelestialObject)
    (centeredObj : GSObjectProfile) (bandpassName : String) (realized_flux : ℚ)
    (det : GalSimDetector) (acc : InterpState σ) : InterpState σ :=
  let name := getFileName det bandpassName
  let pc := C.pixelCoords det g.xPupilRadians g.yPupilRadians
  let img := (lookupImage acc.detectorImages name).getD (blankImage det)
  let sr := C.shoot centeredObj realized_flux
    (pc.1 - det.xCenterPix, pc.2 - det.yCenterPix) det.gain acc.rng img
  let cl := if acc.centroid_base_name.isSome then
      acc.centroid_list ++ [(det.fileName, bandpassName, g.uniqueId, g.flux bandpassName, pc.1, pc.2)]
    else acc.centroid_list
  { acc with detectorImages := setImage acc.detectorImages name sr.1,
             rng := sr.2, centroid_list := cl }

/-- `GalSimInterpreter.drawObject`: dispatch, unconditional marking as drawn,
per-band Poisson flux realization, the two short-circuits (all-zero flux,
empty detector list), target initialization, and the band-outer /
detector-inner draw loop.  The trailing `write_checkpoint()` call only
touches the filesystem and leaves the in-memory state unchanged. -/
def drawObject {σ : Type} (C : Collab σ) (s : InterpState σ)
    (g : GSCelestialObject) : Except String (Option String × InterpState σ) :=
  match findAllDetectors C s g 10 with
  | .error e => .error e
  | .ok (outputString, detectorList, centeredObj) =>
    let s1 : InterpState σ := { s with drawn_objects := insert g.uniqueId s.drawn_objects }
    let rr := realizeFluxes C.poisson s1.rng (s.bandpassNames.map g.flux)
    let s2 : InterpState σ := { s1 with rng := rr.2 }
    if allZeroQ rr.1 then .ok (outputString, s2)
    else if detectorList.isEmpty then .ok (outputString, s2)
    else
      let s3 := addNoiseAndBackground C s2 detectorList
      let s4 := (s.bandpassNames.zip rr.1).foldl
        (fun acc p => detectorList.foldl
          (fun a2 det => drawOnePair C g centeredObj p.1 p.2 det a2) acc) s3
      .ok (outputString, s4)

/-- The persisted `image_state` dict of `write_checkpoint`: raw pixel arrays
keyed by file name, the rng, the drawn set and the centroid log. -/
structure CheckpointRecord (σ : Type) where
  images : List (String × PixArray)
  rng : σ
  drawn_objects : Finset ℕ
  centroid_objects : List (String × String × ℕ × ℚ × ℚ × ℚ)
deriving DecidableEq

/-- `GalSimInterpreter.write_checkpoint`: no-op without a configured
checkpoint file; otherwise produce the record when forced or when the drawn
count hits the cadence.  The atomic tmp-file/fsync/rename protocol is file
I/O and is abstracted into "the record is produced". -/
def write_checkpoint {σ : Type} (s : InterpState σ) (force : Bool)
    (object_list : Option (Finset ℕ)) : Option (CheckpointRecord σ) :=
  match s.checkpoint_file with
  | none => none
  | some _ =>
    if force = true ∨ s.drawn_objects.card % s.nobj_checkpoint = 0 then
      some ⟨s.detectorImages.map (fun p => (p.1, p.2.pix)), s.rng,
        (match object_list with | none => s.drawn_objects | some ol => ol),
        s.centroid_list⟩
    else none

/-- The detector-name unmangling of `restore_checkpoint`:
`"R:{},{} S:{},{}".format(*tuple(key[1:3] + key[5:7]))`. -/
def unmangleKey (key : String) : String :=
  match key.data with
  | _c0 :: c1 :: c2 :: _c3 :: _c4 :: c5 :: c6 :: _rest =>
    String.mk ['R', ':', c1, ',', c2, ' ', 'S', ':', c5, ',', c6]
  | _ => ""

/-- `GalSimInterpreter.restore_checkpoint`: no-op when no checkpoint exists;
otherwise, for each persisted key (in insertion order), rebuild the detector
from the unmangled name via the `make_galsim_detector` collaborator
(`mk_det`), create a blank image for it, add the persisted array into it,
and repopulate rng, drawn set and centroid log. -/
def restore_checkpoint {σ : Type} (mk_det : String → GalSimDetector)
    (chk : Option (CheckpointRecord σ)) (s : InterpState σ) : InterpState σ :=
  match chk with
  | none => s
  | some cp =>
    let imgs := cp.images.foldl (fun acc p =>
      let det := mk_det (unmangleKey p.1)
      setImage acc p.1 ⟨addArray (blankImage det).pix p.2⟩) s.detectorImages
    { s with detectorImages := imgs, rng := cp.rng,
             drawn_objects := cp.drawn_objects, centroid_list := cp.centroid_objects }

/-! ### The silicon interpreter's stamp sizing (`GalSimSiliconInterpeter`) -/

/-- The step factor of `getGoodPhotImageSize` (`factor = 1.1`). -/
def walkFactor : ℚ := 11 / 10

/-- `np.max` of the surface brightness sampled at the 4 edge midpoints and
4 corners of the square of half-side `h`. -/
def edgeMax (obj : GSObjectProfile) (h : ℚ) : ℚ :=
  max (obj.xValue h 0) (max (obj.xValue (-h) 0) (max (obj.xValue 0 h)
    (max (obj.xValue 0 (-h)) (max (obj.xValue h h) (max (obj.xValue h (-h))
      (max (obj.xValue (-h) h) (obj.xValue (-h) (-h))))))))

/-- The grow phase of `getGoodPhotImageSize`: while `N < 4096`, stop as soon
as the max edge sample drops below `keep_sb_level`, else `N *= 1.1`.  The
Python loop is unbounded; `fuel` is a structural bound that real runs
(positive starting size) never exhaust. -/
def growLoop (obj : GSObjectProfile) (keep_sb_level pixel_scale : ℚ) :
    ℕ → ℚ → ℚ
  | 0, n => n
  | fuel + 1, n =>
    if n < 4096 then
      if edgeMax obj (n / 2 * pixel_scale) < keep_sb_level then n
      else growLoop obj keep_sb_level pixel_scale fuel (n * walkFactor)
    else n

/-- The shrink phase of `getGoodPhotImageSize`: while `N >= 64 * 1.1`, sample
the square a factor 1.1 smaller, stop as soon as the max sample exceeds
`keep_sb_level`, else `N /= 1.1`. -/
def shrinkLoop (obj : GSObjectProfile) (keep_sb_level pixel_scale : ℚ) :
    ℕ → ℚ → ℚ
  | 0, n => n
  | fuel + 1, n =>
    if 64 * walkFactor ≤ n then
      if keep_sb_level < edgeMax obj (n / (2 * walkFactor) * pixel_scale) then n
      else shrinkLoop obj keep_sb_level pixel_scale fuel (n / walkFactor)
    else n

/-- Python's `int()` on a rational (truncation toward zero). -/
def pyInt (q : ℚ) : ℤ := if q < 0 then ⌈q⌉ else ⌊q⌋

/-- Loop fuel; ample for every terminating run (a positive starting size
crosses 4096 within 88 growth steps, and 4096 shrinks below 64*1.1 within
45 steps). -/
def walkFuel : ℕ := 1000

/-- `getGoodPhotImageSize(obj, keep_sb_level, pixel_scale)`: start from
GalSim's `getGoodImageSize`, grow, clamp at 4096 (`N = min(N, Nmax)`),
shrink, and truncate to int. -/
def getGoodPhotImageSize (obj : GSObjectProfile)
    (keep_sb_level pixel_scale : ℚ) : ℤ :=
  let n0 : ℚ := (obj.getGoodImageSize pixel_scale : ℚ)
  let n1 := growLoop obj keep_sb_level pixel_scale walkFuel n0
  let n2 := min n1 4096
  pyInt (shrinkLoop obj keep_sb_level pixel_scale walkFuel n2)

/-- Python's `str.lower()` on the ASCII profile-kind strings
(`gsObject.galSimType.lower()`). -/
def pyLower (s : String) : String := String.mk (s.data.map Char.toLower)

/-- The opaque collaborators of `GalSimSiliconInterpeter.getStampBounds`:
the sky background level, the default `folding_threshold` of
`galsim.GSParams()`, the point-source profile under the fast Kolmogorov+
Gaussian PSF (parameterized by the optional tightened folding threshold),
and the extended profile under the double-Gaussian PSF scaled to the
realized flux (`createCenteredObject` followed by `withFlux`). -/
structure StampContext where
  sky_bg_per_pixel : ℚ
  ft_default : ℚ
  pointProfile : GSCelestialObject → Option ℚ → GSObjectProfile
  extendedProfile : GSCelestialObject → ℚ → GSObjectProfile

/-- The square stamp side computed inside
`GalSimSiliconInterpeter.getStampBounds` before the bounds are built:
32 for `flux < 10`; the engine's good size under a possibly-tightened
folding threshold for point sources; for extended profiles the good size,
refined by the surface-brightness walk when `flux > 10 * size**2`, and
recomputed at the relaxed level and clamped to at least `Nmax` when the
refined size exceeds `Nmax`. -/
def stampImageSize (ctx : StampContext) (g : GSCelestialObject)
    (flux keep_sb_level large_object_sb_level : ℚ) (nMax : ℤ)
    (pixel_scale : ℚ) : ℤ :=
  if flux < 10 then 32
  else if pyLower g.galSimType = "pointsource" then
    let folding_threshold := ctx.sky_bg_per_pixel / flux
    let gsparams := if ctx.ft_default ≤ folding_threshold then none
      else some folding_threshold
    ((ctx.pointProfile g gsparams).getGoodImageSize pixel_scale : ℤ)
  else
    let obj := ctx.extendedProfile g flux
    let base : ℤ := (obj.getGoodImageSize pixel_scale : ℤ)
    let refined : ℤ :=
      if 10 * (base : ℚ) ^ 2 < flux then
        getGoodPhotImageSize obj keep_sb_level pixel_scale
      else base
    if nMax < refined then
      max (getGoodPhotImageSize obj large_object_sb_level pixel_scale) nMax
    else refined

/-- `GalSimSiliconInterpeter.getStampBounds`: the stamp side from
`stampImageSize`, then integer bounds centered on the image position with
`int(floor(pos) - N/2)` / `int(ceil(pos) + N/2)` on each axis. -/
def getStampBounds (ctx : StampContext) (g : GSCelestialObject) (flux : ℚ)
    (image_pos : ℚ × ℚ) (keep_sb_level large_object_sb_level : ℚ)
    (nMax : ℤ) (pixel_scale : ℚ) : BoundsI :=
  let n := stampImageSize ctx g flux keep_sb_level large_object_sb_level nMax pixel_scale
  ⟨pyInt ((⌊image_pos.1⌋ : ℚ) - (n : ℚ) / 2),
   pyInt ((⌈image_pos.1⌉ : ℚ) + (n : ℚ) / 2),
   pyInt ((⌊image_pos.2⌋ : ℚ) - (n : ℚ) / 2),
   pyInt ((⌈image_pos.2⌉ : ℚ) + (n : ℚ) / 2)⟩

/-- The extra opaque collaborators of the silicon interpreter's draw loop:
the stamp-sizing context, `np.sqrt` (an opaque numeric primitive), and the
sensor-model photon shoot (profile, realized flux, offset from the stamp's
true center, gain, stamp bounds, rng, image). -/
structure SiliconExtras (σ : Type) where
  stampCtx : StampContext
  sqrtQ : ℚ → ℚ
  shootSensor : GSObjectProfile → ℚ → ℚ × ℚ → ℚ → BoundsI → σ → GSImage → GSImage × σ

/-- The pixel bounds of a freshly created `galsim.Image(nx, ny)` (origin
at (1, 1)). -/
def imageBounds (det : GalSimDetector) : BoundsI :=
  ⟨1, det.xMaxPix - det.xMinPix + 1, 1, det.yMaxPix - det.yMinPix + 1⟩

/-- The silicon drawObject's per-(band, detector) body: pixel position,
stamp bounds at `keep_sb_level = sqrt(sky_bg_per_pixel)/3` (relaxed level
three times that, `Nmax=1400`, `pixel_scale=0.2`), intersection with the
image bounds, and — only when the intersection is defined — the sensor draw
offset from the stamp's true center plus the optional centroid entry. -/
def drawOnePairSilicon {σ : Type} (C : Collab σ) (ex : SiliconExtras σ)
    (g : GSCelestialObject) (centeredObj : GSObjectProfile)
    (bandpassName : String) (realized_flux : ℚ) (det : GalSimDetector)
    (acc : InterpState σ) : InterpState σ :=
  let name := getFileName det bandpassName
  let pc := C.pixelCoords det g.xPupilRadians g.yPupilRadians
  let keep := ex.sqrtQ ex.stampCtx.sky_bg_per_pixel / 3
  let bounds := getStampBounds ex.stampCtx g realized_flux pc keep (3 * keep) 1400 (1/5)
  let img := (lookupImage acc.detectorImages name).getD (blankImage det)
  let b2 := bounds.intersect (imageBounds det)
  if b2.isDefinedB then
    let offset := (pc.1 - b2.trueCenterX, pc.2 - b2.trueCenterY)
    let sr := ex.shootSensor centeredObj realized_flux offset det.gain b2 acc.rng img
    let cl := if acc.centroid_base_name.isSome then
        acc.centroid_list ++ [(det.fileName, bandpassName, g.uniqueId, g.flux bandpassName, pc.1, pc.2)]
      else acc.centroid_list
    { acc with detectorImages := setImage acc.detectorImages name sr.1,
               rng := sr.2, centroid_list := cl }
  else acc

/-- `GalSimSiliconInterpeter.drawObject`: identical dispatch, drawn-marking,
flux realization and short-circuits as the base class; the draw loop windows
each draw to the tight stamp and feeds the sensor model. -/
def drawObjectSilicon {σ : Type} (C : Collab σ) (ex : SiliconExtras σ)
    (s : InterpState σ) (g : GSCelestialObject) :
    Except String (Option String × InterpState σ) :=
  match findAllDetectors C s g 10 with
  | .error e => .error e
  | .ok (outputString, detectorList, centeredObj) =>
    let s1 : InterpState σ := { s with drawn_objects := insert g.uniqueId s.drawn_objects }
    let rr := realizeFluxes C.poisson s1.rng (s.bandpassNames.map g.flux)
    let s2 : InterpState σ := { s1 with rng := rr.2 }
    if allZeroQ rr.1 then .ok (outputString, s2)
    else if detectorList.isEmpty then .ok (outputString, s2)
    else
      let s3 := addNoiseAndBackground C s2 detectorList
      let s4 := (s.bandpassNames.zip rr.1).foldl
        (fun acc p => detectorList.foldl
          (fun a2 det => drawOnePairSilicon C ex g centeredObj p.1 p.2 det a2) acc) s3
      .ok (outputString, s4)

/-! ### Helper lemmas about the surface-brightness walk -/

theorem growLoop_succ (obj : GSObjectProfile) (k ps : ℚ) (fuel : ℕ) (n : ℚ) :
    growLoop obj k ps (fuel + 1) n =
      if n < 4096 then
        if edgeMax obj (n / 2 * ps) < k then n
        else growLoop obj k ps fuel (n * walkFactor)
      else n := rfl

theorem shrinkLoop_succ (obj : GSObjectProfile) (k ps : ℚ) (fuel : ℕ) (n : ℚ) :
    shrinkLoop obj k ps (fuel + 1) n =
      if 64 * walkFactor ≤ n then
        if k < edgeMax obj (n / (2 * walkFactor) * ps) then n
        else shrinkLoop obj k ps fuel (n / walkFactor)
      else n := rfl

theorem walkFactor_pos : (0 : ℚ) < walkFactor := by norm_num [walkFactor]

theorem one_le_walkFactor : (1 : ℚ) ≤ walkFactor := by norm_num [walkFactor]

theorem one_lt_walkFactor : (1 : ℚ) < walkFactor := by norm_num [walkFactor]

theorem growLoop_ge (obj : GSObjectProfile) (k ps : ℚ) :
    ∀ (fuel : ℕ) (n : ℚ), 0 ≤ n → n ≤ growLoop obj k ps fuel n := by
  intro fuel
  induction fuel with
  | zero => intro n _; exact le_refl n
  | succ f ih =>
    intro n hn
    rw [growLoop_succ]
    split
    · split
      · exact le_refl n
      · exact le_trans (le_mul_of_one_le_right hn one_le_walkFactor)
          (ih (n * walkFactor) (mul_nonneg hn (le_of_lt walkFactor_pos)))
    · exact le_refl n

theorem growLoop_nonneg (obj : GSObjectProfile) (k ps : ℚ) (fuel : ℕ) (n : ℚ)
    (hn : 0 ≤ n) : 0 ≤ growLoop obj k ps fuel n :=
  le_trans hn (growLoop_ge obj k ps fuel n hn)

theorem growLoop_anti_keep (obj : GSObjectProfile) (a b ps : ℚ) (hab : a ≤ b) :
    ∀ (fuel : ℕ) (n : ℚ), 0 ≤ n →
      growLoop obj b ps fuel n ≤ growLoop obj a ps fuel n := by
  intro fuel
  induction fuel with
  | zero => intro n _; exact le_refl n
  | succ f ih =>
    intro n hn
    rw [growLoop_succ, growLoop_succ]
    by_cases h4 : n < 4096
    · rw [if_pos h4, if_pos h4]
      by_cases ha : edgeMax obj (n / 2 * ps) < a
      · rw [if_pos ha, if_pos (lt_of_lt_of_le ha hab)]
      · rw [if_neg ha]
        by_cases hb : edgeMax obj (n / 2 * ps) < b
        · rw [if_pos hb]
          exact le_trans (le_mul_of_one_le_right hn one_le_walkFactor)
            (growLoop_ge obj a ps f (n * walkFactor)
              (mul_nonneg hn (le_of_lt walkFactor_pos)))
        · rw [if_neg hb]
          exact ih (n * walkFactor) (mul_nonneg hn (le_of_lt walkFactor_pos))
    · rw [if_neg h4, if_neg h4]

theorem growLoop_grid (obj : GSObjectProfile) (k ps : ℚ) :
    ∀ (fuel : ℕ) (n : ℚ), ∃ i ≤ fuel,
      growLoop obj k ps fuel n = n * walkFactor ^ i := by
  intro fuel
  induction fuel with
  | zero => intro n; exact ⟨0, le_refl 0, by simp [growLoop]⟩
  | succ f ih =>
    intro n
    rw [growLoop_succ]
    by_cases h4 : n < 4096
    · by_cases hk : edgeMax obj (n / 2 * ps) < k
      · exact ⟨0, Nat.zero_le _, by simp [h4, hk]⟩
      · obtain ⟨i, hi, heq⟩ := ih (n * walkFactor)
        refine ⟨i + 1, Nat.succ_le_succ hi, ?_⟩
        rw [if_pos h4, if_neg hk, heq, pow_succ]
        ring
    · exact ⟨0, Nat.zero_le _, by simp [h4]⟩

theorem shrinkLoop_le (obj : GSObjectProfile) (k ps : ℚ) :
    ∀ (fuel : ℕ) (n : ℚ), 0 ≤ n → shrinkLoop obj k ps fuel n ≤ n := by
  intro fuel
  induction fuel with
  | zero => intro n _; exact le_refl n
  | succ f ih =>
    intro n hn
    rw [shrinkLoop_succ]
    split
    · split
      · exact le_refl n
      · exact le_trans (ih (n / walkFactor) (div_nonneg hn (le_of_lt walkFactor_pos)))
          (div_le_self hn one_le_walkFactor)
    · exact le_refl n

theorem shrinkLoop_nonneg (obj : GSObjectProfile) (k ps : ℚ) :
    ∀ (fuel : ℕ) (n : ℚ), 0 ≤ n → 0 ≤ shrinkLoop obj k ps fuel n := by
  intro fuel
  induction fuel with
  | zero => intro n hn; exact hn
  | succ f ih =>
    intro n hn
    rw [shrinkLoop_succ]
    split
    · split
      · exact hn
      · exact ih (n / walkFactor) (div_nonneg hn (le_of_lt walkFactor_pos))
    · exact hn

theorem shrinkLoop_anti_keep (obj : GSObjectProfile) (a b ps : ℚ) (hab : a ≤ b) :
    ∀ (fuel : ℕ) (n : ℚ), 0 ≤ n →
      shrinkLoop obj b ps fuel n ≤ shrinkLoop obj a ps fuel n := by
  intro fuel
  induction fuel with
  | zero => intro n _; exact le_refl n
  | succ f ih =>
    intro n hn
    rw [shrinkLoop_succ, shrinkLoop_succ]
    by_cases hfl : 64 * walkFactor ≤ n
    · rw [if_pos hfl, if_pos hfl]
      by_cases hb : b < edgeMax obj (n / (2 * walkFactor) * ps)
      · rw [if_pos hb, if_pos (lt_of_le_of_lt hab hb)]
      · rw [if_neg hb]
        by_cases ha : a < edgeMax obj (n / (2 * walkFactor) * ps)
        · rw [if_pos ha]
          exact le_trans (shrinkLoop_le obj b ps f (n / walkFactor)
            (div_nonneg hn (le_of_lt walkFactor_pos)))
            (div_le_self hn one_le_walkFactor)
        · rw [if_neg ha]
          exact ih (n / walkFactor) (div_nonneg hn (le_of_lt walkFactor_pos))
    · rw [if_neg hfl, if_neg hfl]

theorem shrinkLoop_anti_fuel (obj : GSObjectProfile) (k ps : ℚ) :
    ∀ (fuelBig fuel : ℕ), fuel ≤ fuelBig → ∀ (n : ℚ), 0 ≤ n →
      shrinkLoop obj k ps fuelBig n ≤ shrinkLoop obj k ps fuel n := by
  intro fuelBig
  induction fuelBig with
  | zero =>
    intro fuel hf n _
    rw [Nat.le_zero.mp hf]
  | succ f ih =>
    intro fuel hf n hn
    match fuel with
    | 0 => exact shrinkLoop_le obj k ps (f + 1) n hn
    | g + 1 =>
      rw [shrinkLoop_succ, shrinkLoop_succ]
      by_cases hfl : 64 * walkFactor ≤ n
      · rw [if_pos hfl, if_pos hfl]
        by_cases hk : k < edgeMax obj (n / (2 * walkFactor) * ps)
        · rw [if_pos hk, if_pos hk]
        · rw [if_neg hk, if_neg hk]
          exact ih g (Nat.succ_le_succ_iff.mp hf) (n / walkFactor)
            (div_nonneg hn (le_of_lt walkFactor_pos))
      · rw [if_neg hfl, if_neg hfl]

theorem shrinkLoop_step_up (obj : GSObjectProfile) (k ps : ℚ) (fuel : ℕ)
    (n : ℚ) (hn : 0 ≤ n) :
    shrinkLoop obj k ps fuel n ≤ shrinkLoop obj k ps (fuel + 1) (n * walkFactor) := by
  rw [shrinkLoop_succ]
  have hcanc : n * walkFactor / (2 * walkFactor) = n / 2 := by
    rw [mul_comm 2 walkFactor, ← div_div, mul_div_assoc, div_self (ne_of_gt walkFactor_pos),
      mul_one]
  by_cases hfl : 64 * walkFactor ≤ n * walkFactor
  · rw [if_pos hfl]
    by_cases hk : k < edgeMax obj (n * walkFactor / (2 * walkFactor) * ps)
    · rw [if_pos hk]
      exact le_trans (shrinkLoop_le obj k ps fuel n hn)
        (le_mul_of_one_le_right hn one_le_walkFactor)
    · rw [if_neg hk, mul_div_cancel_right₀ n (ne_of_gt walkFactor_pos)]
  · rw [if_neg hfl]
    exact le_trans (shrinkLoop_le obj k ps fuel n hn)
      (le_mul_of_one_le_right hn one_le_walkFactor)

theorem shrinkLoop_chain (obj : GSObjectProfile) (k ps : ℚ) (fuel : ℕ) :
    ∀ (j : ℕ) (n : ℚ), 0 ≤ n →
      shrinkLoop obj k ps fuel n ≤ shrinkLoop obj k ps (fuel + j) (n * walkFactor ^ j) := by
  intro j
  induction j with
  | zero => intro n _; simp
  | succ i ih =>
    intro n hn
    have h1 : shrinkLoop obj k ps fuel n ≤ shrinkLoop obj k ps (fuel + i) (n * walkFactor ^ i) :=
      ih n hn
    have h2 : shrinkLoop obj k ps (fuel + i) (n * walkFactor ^ i) ≤
        shrinkLoop obj k ps (fuel + i + 1) (n * walkFactor ^ i * walkFactor) :=
      shrinkLoop_step_up obj k ps (fuel + i) (n * walkFactor ^ i)
        (mul_nonneg hn (pow_nonneg (le_of_lt walkFactor_pos) i))
    have heq : n * walkFactor ^ i * walkFactor = n * walkFactor ^ (i + 1) := by
      rw [pow_succ]; ring
    rw [heq] at h2
    exact le_trans h1 h2

theorem shrinkLoop_ge_min (obj : GSObjectProfile) (k ps : ℚ) :
    ∀ (fuel : ℕ) (n : ℚ), 0 ≤ n → min n 64 ≤ shrinkLoop obj k ps fuel n := by
  intro fuel
  induction fuel with
  | zero => intro n _; exact min_le_left n 64
  | succ f ih =>
    intro n hn
    rw [shrinkLoop_succ]
    by_cases hfl : 64 * walkFactor ≤ n
    · have h64 : (64 : ℚ) ≤ n :=
        le_trans (by norm_num [walkFactor]) hfl
      rw [if_pos hfl]
      by_cases hk : k < edgeMax obj (n / (2 * walkFactor) * ps)
      · rw [if_pos hk]
        exact min_le_left n 64
      · rw [if_neg hk]
        have h64' : (64 : ℚ) ≤ n / walkFactor := by
          rw [le_div_iff₀ walkFactor_pos]
          exact hfl
        have := ih (n / walkFactor) (div_nonneg hn (le_of_lt walkFactor_pos))
        calc min n 64 ≤ 64 := min_le_right n 64
          _ = min (n / walkFactor) 64 := (min_eq_right h64').symm
          _ ≤ shrinkLoop obj k ps f (n / walkFactor) := ih _ (div_nonneg hn (le_of_lt walkFactor_pos))
    · rw [if_neg hfl]
      exact min_le_left n 64

theorem growLoop_stop (obj : GSObjectProfile) (k ps : ℚ) (fuel : ℕ) (n : ℚ)
    (h4 : n < 4096) (hk : edgeMax obj (n / 2 * ps) < k) (hf : fuel ≠ 0) :
    growLoop obj k ps fuel n = n := by
  match fuel with
  | 0 => exact absurd rfl hf
  | f + 1 => rw [growLoop_succ, if_pos h4, if_pos hk]

theorem growLoop_cap (obj : GSObjectProfile) (k ps : ℚ) (fuel : ℕ) (n : ℚ)
    (h4 : ¬ n < 4096) : growLoop obj k ps fuel n = n := by
  match fuel with
  | 0 => rfl
  | f + 1 => rw [growLoop_succ, if_neg h4]

theorem growLoop_go (obj : GSObjectProfile) (k ps : ℚ) (fuel : ℕ) (n : ℚ)
    (h4 : n < 4096) (hk : ¬ edgeMax obj (n / 2 * ps) < k) :
    growLoop obj k ps (fuel + 1) n = growLoop obj k ps fuel (n * walkFactor) := by
  rw [growLoop_succ, if_pos h4, if_neg hk]

theorem shrinkLoop_floor_exit (obj : GSObjectProfile) (k ps : ℚ) (fuel : ℕ)
    (n : ℚ) (hfl : ¬ 64 * walkFactor ≤ n) : shrinkLoop obj k ps fuel n = n := by
  match fuel with
  | 0 => rfl
  | f + 1 => rw [shrinkLoop_succ, if_neg hfl]

theorem shrinkLoop_stop (obj : GSObjectProfile) (k ps : ℚ) (fuel : ℕ) (n : ℚ)
    (hfl : 64 * walkFactor ≤ n) (hk : k < edgeMax obj (n / (2 * walkFactor) * ps))
    (hf : fuel ≠ 0) : shrinkLoop obj k ps fuel n = n := by
  match fuel with
  | 0 => exact absurd rfl hf
  | f + 1 => rw [shrinkLoop_succ, if_pos hfl, if_pos hk]

theorem shrinkLoop_go (obj : GSObjectProfile) (k ps : ℚ) (fuel : ℕ) (n : ℚ)
    (hfl : 64 * walkFactor ≤ n)
    (hk : ¬ k < edgeMax obj (n / (2 * walkFactor) * ps)) :
    shrinkLoop obj k ps (fuel + 1) n = shrinkLoop obj k ps fuel (n / walkFactor) := by
  rw [shrinkLoop_succ, if_pos hfl, if_neg hk]

theorem getGoodPhotImageSize_eq (obj : GSObjectProfile) (k ps : ℚ) :
    getGoodPhotImageSize obj k ps =
      pyInt (shrinkLoop obj k ps walkFuel
        (min (growLoop obj k ps walkFuel ((obj.getGoodImageSize ps : ℕ) : ℚ)) 4096)) := rfl

theorem getStampBounds_eq (ctx : StampContext) (g : GSCelestialObject)
    (flux : ℚ) (image_pos : ℚ × ℚ) (k l : ℚ) (nMax : ℤ) (ps : ℚ) :
    getStampBounds ctx g flux image_pos k l nMax ps =
      ⟨pyInt ((⌊image_pos.1⌋ : ℚ) - ((stampImageSize ctx g flux k l nMax ps : ℤ) : ℚ) / 2),
       pyInt ((⌈image_pos.1⌉ : ℚ) + ((stampImageSize ctx g flux k l nMax ps : ℤ) : ℚ) / 2),
       pyInt ((⌊image_pos.2⌋ : ℚ) - ((stampImageSize ctx g flux k l nMax ps : ℤ) : ℚ) / 2),
       pyInt ((⌈image_pos.2⌉ : ℚ) + ((stampImageSize ctx g flux k l nMax ps : ℤ) : ℚ) / 2)⟩ := rfl

theorem pyInt_intCast (m : ℤ) : pyInt (m : ℚ) = m := by
  unfold pyInt
  split
  · exact Int.ceil_intCast m
  · exact Int.floor_intCast m

theorem pyInt_eq_floor_of_nonneg (q : ℚ) (hq : 0 ≤ q) : pyInt q = ⌊q⌋ := by
  unfold pyInt
  rw [if_neg (not_lt.mpr hq)]

theorem pyInt_mono_of_nonneg (p q : ℚ) (hp : 0 ≤ p) (hpq : p ≤ q) :
    pyInt p ≤ pyInt q := by
  rw [pyInt_eq_floor_of_nonneg p hp, pyInt_eq_floor_of_nonneg q (le_trans hp hpq)]
  exact Int.floor_le_floor hpq

/-! ### The spec's description of the two-phase walk, for refinement -/

/-- Written from the spec's wording: the grow phase of the surface-brightness
hunt — enlarge the box by the fixed multiplicative factor, re-checking the
8 boundary samples, until their maximum drops below the floor, never
stepping once the box has reached the absolute ceiling 4096. -/
def specGrowPhase (obj : GSObjectProfile) (floorLevel pixel_scale : ℚ) :
    ℕ → ℚ → ℚ
  | 0, box => box
  | steps + 1, box =>
    if box < 4096 then
      if edgeMax obj (box / 2 * pixel_scale) < floorLevel then box
      else specGrowPhase obj floorLevel pixel_scale steps (box * walkFactor)
    else box

/-- Written from the spec's wording: the shrink phase — reduce the box by the
inverse factor, re-sampling the same 8 points on each smaller box, stopping
as soon as the maximum sample exceeds the floor, the stepping never taking
the box below 64. -/
def specShrinkPhase (obj : GSObjectProfile) (floorLevel pixel_scale : ℚ) :
    ℕ → ℚ → ℚ
  | 0, box => box
  | steps + 1, box =>
    if 64 * walkFactor ≤ box then
      if floorLevel < edgeMax obj (box / (2 * walkFactor) * pixel_scale) then box
      else specShrinkPhase obj floorLevel pixel_scale steps (box / walkFactor)
    else box

/-- Written from the spec's wording: the whole two-phase walk — start from
the engine's natural size estimate, grow, clamp at the ceiling, shrink,
truncate to an integer. -/
def specTwoPhaseWalk (obj : GSObjectProfile) (floorLevel pixel_scale : ℚ) : ℤ :=
  let start : ℚ := (obj.getGoodImageSize pixel_scale : ℚ)
  let grown := specGrowPhase obj floorLevel pixel_scale walkFuel start
  pyInt (specShrinkPhase obj floorLevel pixel_scale walkFuel (min grown 4096))

theorem specGrowPhase_eq (obj : GSObjectProfile) (k ps : ℚ) :
    ∀ (fuel : ℕ) (n : ℚ), specGrowPhase obj k ps fuel n = growLoop obj k ps fuel n := by
  intro fuel
  induction fuel with
  | zero => intro n; rfl
  | succ f ih => intro n; rw [specGrowPhase, growLoop_succ, ih]

theorem specShrinkPhase_eq (obj : GSObjectProfile) (k ps : ℚ) :
    ∀ (fuel : ℕ) (n : ℚ), specShrinkPhase obj k ps fuel n = shrinkLoop obj k ps fuel n := by
  intro fuel
  induction fuel with
  | zero => intro n; rfl
  | succ f ih => intro n; rw [specShrinkPhase, shrinkLoop_succ, ih]

/-! ### Claim theorems: stamp sizing (C5–C8) -/

/-- C5: for every source with `realizedFlux < 10`, `getStampBounds` uses a
fixed stamp side of exactly 32, regardless of profile kind, and the returned
bounds are the 32-wide window `floor(pos)-16 .. ceil(pos)+16` on each axis. -/
theorem c5_faint_source_stamp (ctx : StampContext) (g : GSCelestialObject)
    (flux keep_sb_level large_object_sb_level : ℚ) (nMax : ℤ)
    (pixel_scale : ℚ) (image_pos : ℚ × ℚ) (h : flux < 10) :
    stampImageSize ctx g flux keep_sb_level large_object_sb_level nMax pixel_scale = 32 ∧
    getStampBounds ctx g flux image_pos keep_sb_level large_object_sb_level nMax pixel_scale =
      ⟨⌊image_pos.1⌋ - 16, ⌈image_pos.1⌉ + 16, ⌊image_pos.2⌋ - 16, ⌈image_pos.2⌉ + 16⟩ := by
  have hsize : stampImageSize ctx g flux keep_sb_level large_object_sb_level nMax pixel_scale = 32 := by
    unfold stampImageSize
    rw [if_pos h]
  refine ⟨hsize, ?_⟩
  rw [getStampBounds_eq, hsize]
  have h16 : ((32 : ℤ) : ℚ) / 2 = ((16 : ℤ) : ℚ) := by norm_num
  rw [h16]
  have e1 : (⌊image_pos.1⌋ : ℚ) - ((16 : ℤ) : ℚ) = ((⌊image_pos.1⌋ - 16 : ℤ) : ℚ) := by
    push_cast; ring
  have e2 : (⌈image_pos.1⌉ : ℚ) + ((16 : ℤ) : ℚ) = ((⌈image_pos.1⌉ + 16 : ℤ) : ℚ) := by
    push_cast; ring
  have e3 : (⌊image_pos.2⌋ : ℚ) - ((16 : ℤ) : ℚ) = ((⌊image_pos.2⌋ - 16 : ℤ) : ℚ) := by
    push_cast; ring
  have e4 : (⌈image_pos.2⌉ : ℚ) + ((16 : ℤ) : ℚ) = ((⌈image_pos.2⌉ + 16 : ℤ) : ℚ) := by
    push_cast; ring
  rw [e1, e2, e3, e4, pyInt_intCast, pyInt_intCast, pyInt_intCast, pyInt_intCast]

/-- C5 witness: a concrete faint source (`realizedFlux = 5`, a sersic-type
profile) gets stamp side exactly 32 and window (-16..16)x(-16..16). -/
theorem c5_witness :
    (5 : ℚ) < 10 ∧
    stampImageSize ⟨1, 1/200, fun _ _ => ⟨fun _ => 7, fun _ _ => 0⟩,
        fun _ _ => ⟨fun _ => 7, fun _ _ => 0⟩⟩
      ⟨1, "sersic", 0, 0, 0, 0, fun _ => 5⟩ 5 1 3 1400 (1/5) = 32 ∧
    getStampBounds ⟨1, 1/200, fun _ _ => ⟨fun _ => 7, fun _ _ => 0⟩,
        fun _ _ => ⟨fun _ => 7, fun _ _ => 0⟩⟩
      ⟨1, "sersic", 0, 0, 0, 0, fun _ => 5⟩ 5 (0, 0) 1 3 1400 (1/5) =
      ⟨-16, 16, -16, 16⟩ := by
  have h5 : (5 : ℚ) < 10 := by norm_num
  obtain ⟨h1, h2⟩ := c5_faint_source_stamp
    ⟨1, 1/200, fun _ _ => ⟨fun _ => 7, fun _ _ => 0⟩, fun _ _ => ⟨fun _ => 7, fun _ _ => 0⟩⟩
    ⟨1, "sersic", 0, 0, 0, 0, fun _ => 5⟩ 5 1 3 1400 (1/5) (0, 0) h5
  refine ⟨h5, h1, ?_⟩
  rw [h2]
  norm_num

/-- C6 (amended): `getGoodPhotImageSize` follows the spec's two-phase
surface-brightness walk, and its result never exceeds the ceiling 4096; the
absolute floor 64, however, only bounds the shrink phase — the returned size
is at least `min(initial engine estimate, 64)` and can be below 64 when the
engine's natural size estimate already is. -/
theorem c6_walk_follows_spec_and_bounds (obj : GSObjectProfile)
    (keep_sb_level pixel_scale : ℚ) :
    getGoodPhotImageSize obj keep_sb_level pixel_scale =
      specTwoPhaseWalk obj keep_sb_level pixel_scale ∧
    getGoodPhotImageSize obj keep_sb_level pixel_scale ≤ 4096 ∧
    min ((obj.getGoodImageSize pixel_scale : ℤ)) 64 ≤
      getGoodPhotImageSize obj keep_sb_level pixel_scale := by
  have hn0 : (0 : ℚ) ≤ ((obj.getGoodImageSize pixel_scale : ℕ) : ℚ) := by positivity
  have hn1 : (0 : ℚ) ≤ growLoop obj keep_sb_level pixel_scale walkFuel
      ((obj.getGoodImageSize pixel_scale : ℕ) : ℚ) :=
    growLoop_nonneg obj keep_sb_level pixel_scale walkFuel _ hn0
  have hn2 : (0 : ℚ) ≤ min (growLoop obj keep_sb_level pixel_scale walkFuel
      ((obj.getGoodImageSize pixel_scale : ℕ) : ℚ)) 4096 := le_min hn1 (by norm_num)
  have hn3 : (0 : ℚ) ≤ shrinkLoop obj keep_sb_level pixel_scale walkFuel
      (min (growLoop obj keep_sb_level pixel_scale walkFuel
        ((obj.getGoodImageSize pixel_scale : ℕ) : ℚ)) 4096) :=
    shrinkLoop_nonneg obj keep_sb_level pixel_scale walkFuel _ hn2
  refine ⟨?_, ?_, ?_⟩
  · rw [getGoodPhotImageSize_eq]
    simp only [specTwoPhaseWalk, specGrowPhase_eq, specShrinkPhase_eq]
  · rw [getGoodPhotImageSize_eq, pyInt_eq_floor_of_nonneg _ hn3]
    have hle : shrinkLoop obj keep_sb_level pixel_scale walkFuel
        (min (growLoop obj keep_sb_level pixel_scale walkFuel
          ((obj.getGoodImageSize pixel_scale : ℕ) : ℚ)) 4096) ≤ 4096 :=
      le_trans (shrinkLoop_le obj keep_sb_level pixel_scale walkFuel _ hn2)
        (min_le_right _ 4096)
    calc ⌊shrinkLoop obj keep_sb_level pixel_scale walkFuel
          (min (growLoop obj keep_sb_level pixel_scale walkFuel
            ((obj.getGoodImageSize pixel_scale : ℕ) : ℚ)) 4096)⌋
        ≤ ⌊(4096 : ℚ)⌋ := Int.floor_le_floor hle
      _ = 4096 := by norm_num
  · rw [getGoodPhotImageSize_eq, pyInt_eq_floor_of_nonneg _ hn3]
    have h1 : min (min (growLoop obj keep_sb_level pixel_scale walkFuel
        ((obj.getGoodImageSize pixel_scale : ℕ) : ℚ)) 4096) 64 ≤
        shrinkLoop obj keep_sb_level pixel_scale walkFuel
          (min (growLoop obj keep_sb_level pixel_scale walkFuel
            ((obj.getGoodImageSize pixel_scale : ℕ) : ℚ)) 4096) :=
      shrinkLoop_ge_min obj keep_sb_level pixel_scale walkFuel _ hn2
    have h2 : min ((obj.getGoodImageSize pixel_scale : ℕ) : ℚ) 64 ≤
        min (min (growLoop obj keep_sb_level pixel_scale walkFuel
          ((obj.getGoodImageSize pixel_scale : ℕ) : ℚ)) 4096) 64 := by
      have hmm : min ((obj.getGoodImageSize pixel_scale : ℕ) : ℚ) 4096 ≤
          min (growLoop obj keep_sb_level pixel_scale walkFuel
            ((obj.getGoodImageSize pixel_scale : ℕ) : ℚ)) 4096 :=
        min_le_min (growLoop_ge obj keep_sb_level pixel_scale walkFuel _ hn0)
          (le_refl (4096 : ℚ))
      have h3 : min ((obj.getGoodImageSize pixel_scale : ℕ) : ℚ) 64 ≤
          min (min ((obj.getGoodImageSize pixel_scale : ℕ) : ℚ) 4096) 64 := by
        rw [min_assoc]
        norm_num
      exact le_trans h3 (min_le_min hmm (le_refl (64 : ℚ)))
    rw [Int.le_floor]
    push_cast
    exact le_trans h2 h1

/-- A profile whose engine size estimate is already small (32) and whose
surface brightness is everywhere 0. -/
def faintFlatProfile : GSObjectProfile := ⟨fun _ => 32, fun _ _ => 0⟩

theorem faintFlatProfile_edgeMax (h : ℚ) : edgeMax faintFlatProfile h = 0 := by
  simp [edgeMax, faintFlatProfile]

theorem faintFlatProfile_walk (k : ℚ) (hk : 0 < k) :
    getGoodPhotImageSize faintFlatProfile k (1/5) = 32 := by
  rw [getGoodPhotImageSize_eq]
  have hsz : ((faintFlatProfile.getGoodImageSize (1/5) : ℕ) : ℚ) = 32 := by
    norm_num [faintFlatProfile]
  rw [hsz]
  rw [growLoop_stop faintFlatProfile k (1/5) walkFuel 32 (by norm_num)
    (by rw [faintFlatProfile_edgeMax]; exact hk) (by norm_num [walkFuel])]
  rw [show min (32 : ℚ) 4096 = 32 by norm_num]
  rw [shrinkLoop_floor_exit faintFlatProfile k (1/5) walkFuel 32 (by norm_num [walkFactor])]
  rw [show (32 : ℚ) = ((32 : ℤ) : ℚ) by norm_num, pyInt_intCast]

/-- C6 counterexample: for a profile whose engine size estimate is 32 and
whose surface brightness is everywhere 0, the walk returns 32 — the claim's
"never returns less than the absolute floor 64" is false. -/
theorem c6_cex_returns_below_64 :
    getGoodPhotImageSize faintFlatProfile 1 (1/5) = 32 ∧
    getGoodPhotImageSize faintFlatProfile 1 (1/5) < 64 := by
  have hval := faintFlatProfile_walk 1 (by norm_num)
  exact ⟨hval, by rw [hval]; norm_num⟩

/-- C7 (amended): for a fixed profile and pixel scale, `getGoodPhotImageSize`
is non-increasing in `keep_sb_level` provided the grow phase at the lower
level stays below the ceiling 4096 (the ceiling snaps a capped run off the
1.1-geometric grid, and then a higher floor can yield a larger box). -/
theorem c7_antitone_when_uncapped (obj : GSObjectProfile) (a b pixel_scale : ℚ)
    (hab : a ≤ b)
    (hcap : growLoop obj a pixel_scale walkFuel
      ((obj.getGoodImageSize pixel_scale : ℕ) : ℚ) < 4096) :
    getGoodPhotImageSize obj b pixel_scale ≤ getGoodPhotImageSize obj a pixel_scale := by
  set n0 : ℚ := ((obj.getGoodImageSize pixel_scale : ℕ) : ℚ) with hn0def
  have hn0 : 0 ≤ n0 := by positivity
  set ga : ℚ := growLoop obj a pixel_scale walkFuel n0 with hgadef
  set gb : ℚ := growLoop obj b pixel_scale walkFuel n0 with hgbdef
  have hga0 : 0 ≤ ga := growLoop_nonneg obj a pixel_scale walkFuel n0 hn0
  have hgb0 : 0 ≤ gb := growLoop_nonneg obj b pixel_scale walkFuel n0 hn0
  have hba : gb ≤ ga := growLoop_anti_keep obj a b pixel_scale hab walkFuel n0 hn0
  have hgb4096 : gb < 4096 := lt_of_le_of_lt hba hcap
  have hmina : min ga 4096 = ga := min_eq_left (le_of_lt hcap)
  have hminb : min gb 4096 = gb := min_eq_left (le_of_lt hgb4096)
  have hmaina : getGoodPhotImageSize obj a pixel_scale =
      pyInt (shrinkLoop obj a pixel_scale walkFuel ga) := by
    rw [getGoodPhotImageSize_eq, ← hn0def, ← hgadef, hmina]
  have hmainb : getGoodPhotImageSize obj b pixel_scale =
      pyInt (shrinkLoop obj b pixel_scale walkFuel gb) := by
    rw [getGoodPhotImageSize_eq, ← hn0def, ← hgbdef, hminb]
  obtain ⟨ia, hia, haeq⟩ := growLoop_grid obj a pixel_scale walkFuel n0
  obtain ⟨ib, hib, hbeq⟩ := growLoop_grid obj b pixel_scale walkFuel n0
  rw [← hgadef] at haeq
  rw [← hgbdef] at hbeq
  by_cases hz : n0 = 0
  · have hgaz : ga = 0 := by rw [haeq, hz, zero_mul]
    have hgbz : gb = 0 := by rw [hbeq, hz, zero_mul]
    rw [hmaina, hmainb, hgaz, hgbz,
      shrinkLoop_floor_exit obj a pixel_scale walkFuel 0 (by norm_num [walkFactor]),
      shrinkLoop_floor_exit obj b pixel_scale walkFuel 0 (by norm_num [walkFactor])]
  · have hn0pos : 0 < n0 := lt_of_le_of_ne hn0 (Ne.symm hz)
    have hpow : walkFactor ^ ib ≤ walkFactor ^ ia := by
      have h1 : n0 * walkFactor ^ ib ≤ n0 * walkFactor ^ ia := by
        rw [← hbeq, ← haeq]; exact hba
      exact le_of_mul_le_mul_left h1 hn0pos
    have hible : ib ≤ ia := (pow_le_pow_iff_right₀ one_lt_walkFactor).mp hpow
    have hja : ib + (ia - ib) = ia := Nat.add_sub_cancel' hible
    have hgagb : ga = gb * walkFactor ^ (ia - ib) := by
      rw [haeq, hbeq, mul_assoc, ← pow_add, hja]
    have hjfuel : ia - ib ≤ walkFuel := le_trans (Nat.sub_le ia ib) hia
    have step1 : shrinkLoop obj b pixel_scale walkFuel gb ≤
        shrinkLoop obj b pixel_scale (walkFuel - (ia - ib)) gb :=
      shrinkLoop_anti_fuel obj b pixel_scale walkFuel (walkFuel - (ia - ib))
        (Nat.sub_le walkFuel (ia - ib)) gb hgb0
    have step2 : shrinkLoop obj b pixel_scale (walkFuel - (ia - ib)) gb ≤
        shrinkLoop obj a pixel_scale (walkFuel - (ia - ib)) gb :=
      shrinkLoop_anti_keep obj a b pixel_scale hab (walkFuel - (ia - ib)) gb hgb0
    have step3 : shrinkLoop obj a pixel_scale (walkFuel - (ia - ib)) gb ≤
        shrinkLoop obj a pixel_scale ((walkFuel - (ia - ib)) + (ia - ib))
          (gb * walkFactor ^ (ia - ib)) :=
      shrinkLoop_chain obj a pixel_scale (walkFuel - (ia - ib)) (ia - ib) gb hgb0
    have hfuelback : (walkFuel - (ia - ib)) + (ia - ib) = walkFuel :=
      Nat.sub_add_cancel hjfuel
    rw [hfuelback, ← hgagb] at step3
    have hchain : shrinkLoop obj b pixel_scale walkFuel gb ≤
        shrinkLoop obj a pixel_scale walkFuel ga :=
      le_trans step1 (le_trans step2 step3)
    rw [hmaina, hmainb]
    exact pyInt_mono_of_nonneg _ _
      (shrinkLoop_nonneg obj b pixel_scale walkFuel gb hgb0) hchain

/-- A surface-brightness pattern depending only on the Chebyshev radius
`max |x| |y|`: 3/2 on the box the grow phase first samples (radius 400 in
arcsec for a 4000-pixel box at scale 0.2), 3 on the two boxes the two shrink
runs first sample after the uncapped (radius 4000/11) and capped
(radius 40960/121) starts, 0 elsewhere. -/
def chebProfileValue (r : ℚ) : ℚ :=
  if r = 400 then 3/2
  else if r = 4000/11 then 3
  else if r = 40960/121 then 3
  else 0

/-- A profile with engine size estimate 4000 whose surface brightness is the
Chebyshev-radial pattern above. -/
def cappedWalkProfile : GSObjectProfile :=
  ⟨fun _ => 4000, fun x y => chebProfileValue (max |x| |y|)⟩

theorem cappedWalkProfile_edgeMax (h : ℚ) (hh : 0 ≤ h) :
    edgeMax cappedWalkProfile h = chebProfileValue h := by
  simp [edgeMax, cappedWalkProfile, abs_of_nonneg hh, abs_neg, abs_zero,
    max_eq_left hh, max_eq_right hh, max_self]

/-- C7 counterexample: with `cappedWalkProfile` at pixel scale 0.2, the
floor 1 yields stamp size 3723 while the higher floor 2 yields 4000 — the
claimed monotonicity fails (the run at floor 1 is capped at 4096 and so
leaves the geometric grid). -/
theorem c7_cex_cap_breaks_antitone :
    (1 : ℚ) ≤ 2 ∧
    getGoodPhotImageSize cappedWalkProfile 1 (1/5) = 3723 ∧
    getGoodPhotImageSize cappedWalkProfile 2 (1/5) = 4000 ∧
    ¬ (getGoodPhotImageSize cappedWalkProfile 2 (1/5) ≤
        getGoodPhotImageSize cappedWalkProfile 1 (1/5)) := by
  have hsz : ((cappedWalkProfile.getGoodImageSize (1/5) : ℕ) : ℚ) = 4000 := by
    norm_num [cappedWalkProfile]
  have hlow : getGoodPhotImageSize cappedWalkProfile 1 (1/5) = 3723 := by
    rw [getGoodPhotImageSize_eq, hsz]
    rw [show walkFuel = 999 + 1 from rfl]
    rw [growLoop_go cappedWalkProfile 1 (1/5) 999 4000 (by norm_num)
      (by rw [show (4000 : ℚ) / 2 * (1/5) = 400 by norm_num,
            cappedWalkProfile_edgeMax 400 (by norm_num)]
          norm_num [chebProfileValue])]
    rw [show (4000 : ℚ) * walkFactor = 4400 by norm_num [walkFactor]]
    rw [growLoop_cap cappedWalkProfile 1 (1/5) 999 4400 (by norm_num)]
    rw [show min (4400 : ℚ) 4096 = 4096 by norm_num]
    rw [shrinkLoop_go cappedWalkProfile 1 (1/5) 999 4096
      (by norm_num [walkFactor])
      (by rw [show (4096 : ℚ) / (2 * walkFactor) * (1/5) = 4096/11 by norm_num [walkFactor],
            cappedWalkProfile_edgeMax (4096/11) (by norm_num)]
          norm_num [chebProfileValue])]
    rw [show (4096 : ℚ) / walkFactor = 40960/11 by norm_num [walkFactor]]
    rw [shrinkLoop_stop cappedWalkProfile 1 (1/5) 999 (40960/11)
      (by norm_num [walkFactor])
      (by rw [show (40960/11 : ℚ) / (2 * walkFactor) * (1/5) = 40960/121 by norm_num [walkFactor],
            cappedWalkProfile_edgeMax (40960/121) (by norm_num)]
          norm_num [chebProfileValue])
      (by norm_num)]
    rw [pyInt_eq_floor_of_nonneg _ (by norm_num)]
    rw [Int.floor_eq_iff]
    constructor
    · norm_num
    · norm_num
  have hhigh : getGoodPhotImageSize cappedWalkProfile 2 (1/5) = 4000 := by
    rw [getGoodPhotImageSize_eq, hsz]
    rw [growLoop_stop cappedWalkProfile 2 (1/5) walkFuel 4000 (by norm_num)
      (by rw [show (4000 : ℚ) / 2 * (1/5) = 400 by norm_num,
            cappedWalkProfile_edgeMax 400 (by norm_num)]
          norm_num [chebProfileValue])
      (by norm_num [walkFuel])]
    rw [show min (4000 : ℚ) 4096 = 4000 by norm_num]
    rw [shrinkLoop_stop cappedWalkProfile 2 (1/5) walkFuel 4000
      (by norm_num [walkFactor])
      (by rw [show (4000 : ℚ) / (2 * walkFactor) * (1/5) = 4000/11 by norm_num [walkFactor],
            cappedWalkProfile_edgeMax (4000/11) (by norm_num)]
          norm_num [chebProfileValue])
      (by norm_num [walkFuel])]
    rw [show (4000 : ℚ) = ((4000 : ℤ) : ℚ) by norm_num, pyInt_intCast]
  refine ⟨by norm_num, hlow, hhigh, ?_⟩
  rw [hlow, hhigh]
  norm_num

/-- C7 witness: at a concrete uncapped profile the amended monotonicity
applies with floors 1 ≤ 2. -/
theorem c7_witness :
    (1 : ℚ) ≤ 2 ∧
    growLoop faintFlatProfile 1 (1/5) walkFuel
      ((faintFlatProfile.getGoodImageSize (1/5) : ℕ) : ℚ) < 4096 ∧
    getGoodPhotImageSize faintFlatProfile 2 (1/5) ≤
      getGoodPhotImageSize faintFlatProfile 1 (1/5) := by
  have hsz : ((faintFlatProfile.getGoodImageSize (1/5) : ℕ) : ℚ) = 32 := by
    norm_num [faintFlatProfile]
  have hcap : growLoop faintFlatProfile 1 (1/5) walkFuel
      ((faintFlatProfile.getGoodImageSize (1/5) : ℕ) : ℚ) < 4096 := by
    rw [hsz, growLoop_stop faintFlatProfile 1 (1/5) walkFuel 32 (by norm_num)
      (by rw [faintFlatProfile_edgeMax]; norm_num) (by norm_num [walkFuel])]
    norm_num
  exact ⟨by norm_num, hcap,
    c7_antitone_when_uncapped faintFlatProfile 1 2 (1/5) (by norm_num) hcap⟩

theorem stampImageSize_extended (ctx : StampContext) (g : GSCelestialObject)
    (flux k l : ℚ) (nMax : ℤ) (ps : ℚ) (h10 : ¬ flux < 10)
    (hpt : ¬ pyLower g.galSimType = "pointsource") :
    stampImageSize ctx g flux k l nMax ps =
      (if nMax < (if 10 * (((ctx.extendedProfile g flux).getGoodImageSize ps : ℤ) : ℚ) ^ 2 < flux
            then getGoodPhotImageSize (ctx.extendedProfile g flux) k ps
            else ((ctx.extendedProfile g flux).getGoodImageSize ps : ℤ))
        then max (getGoodPhotImageSize (ctx.extendedProfile g flux) l ps) nMax
        else (if 10 * (((ctx.extendedProfile g flux).getGoodImageSize ps : ℤ) : ℚ) ^ 2 < flux
            then getGoodPhotImageSize (ctx.extendedProfile g flux) k ps
            else ((ctx.extendedProfile g flux).getGoodImageSize ps : ℤ))) := by
  unfold stampImageSize
  rw [if_neg h10, if_neg hpt]

/-- C8: for extended profiles, if the refined size exceeds `Nmax` the size
is recomputed at the relaxed `large_object_sb_level` and clamped to at least
`Nmax`; consequently the stamp side never exceeds
`max(Nmax, size at the relaxed level)`. -/
theorem c8_large_object_clamp (ctx : StampContext) (g : GSCelestialObject)
    (flux keep_sb_level large_object_sb_level : ℚ) (nMax : ℤ) (pixel_scale : ℚ)
    (h10 : ¬ flux < 10) (hpt : ¬ pyLower g.galSimType = "pointsource") :
    ((nMax < (if 10 * (((ctx.extendedProfile g flux).getGoodImageSize pixel_scale : ℤ) : ℚ) ^ 2 < flux
          then getGoodPhotImageSize (ctx.extendedProfile g flux) keep_sb_level pixel_scale
          else ((ctx.extendedProfile g flux).getGoodImageSize pixel_scale : ℤ))) →
      stampImageSize ctx g flux keep_sb_level large_object_sb_level nMax pixel_scale =
        max (getGoodPhotImageSize (ctx.extendedProfile g flux) large_object_sb_level pixel_scale)
          nMax) ∧
    stampImageSize ctx g flux keep_sb_level large_object_sb_level nMax pixel_scale ≤
      max nMax
        (getGoodPhotImageSize (ctx.extendedProfile g flux) large_object_sb_level pixel_scale) := by
  by_cases hg : nMax < (if 10 * (((ctx.extendedProfile g flux).getGoodImageSize pixel_scale : ℤ) : ℚ) ^ 2 < flux
      then getGoodPhotImageSize (ctx.extendedProfile g flux) keep_sb_level pixel_scale
      else ((ctx.extendedProfile g flux).getGoodImageSize pixel_scale : ℤ))
  · constructor
    · intro _
      rw [stampImageSize_extended ctx g flux keep_sb_level large_object_sb_level nMax pixel_scale h10 hpt,
        if_pos hg]
    · rw [stampImageSize_extended ctx g flux keep_sb_level large_object_sb_level nMax pixel_scale h10 hpt,
        if_pos hg, max_comm]
  · constructor
    · intro h
      exact absurd h hg
    · rw [stampImageSize_extended ctx g flux keep_sb_level large_object_sb_level nMax pixel_scale h10 hpt,
        if_neg hg]
      exact le_trans (not_lt.mp hg) (le_max_left nMax _)

/-- A uniformly bright extended profile (engine estimate 4000, surface
brightness 100 everywhere) used to exercise the large-object clamp. -/
def brightWideProfile : GSObjectProfile := ⟨fun _ => 4000, fun _ _ => 100⟩

/-- The stamp context whose extended-profile constructor returns
`brightWideProfile`. -/
def brightStampContext : StampContext :=
  ⟨100, 1/200, fun _ _ => brightWideProfile, fun _ _ => brightWideProfile⟩

/-- A sersic-type source used with `brightStampContext`. -/
def brightSource : GSCelestialObject := ⟨3, "sersic", 0, 0, 0, 0, fun _ => 200000000⟩

/-- C8 witness: the clamp theorem applied to a concrete bright extended
source with `flux = 2e8`, `Nmax = 1400`. -/
theorem c8_witness :
    ¬ ((200000000 : ℚ) < 10) ∧
    ¬ (pyLower brightSource.galSimType = "pointsource") ∧
    (((1400 : ℤ) < (if 10 * (((brightStampContext.extendedProfile brightSource 200000000).getGoodImageSize (1/5) : ℤ) : ℚ) ^ 2 < 200000000
          then getGoodPhotImageSize (brightStampContext.extendedProfile brightSource 200000000) 1 (1/5)
          else ((brightStampContext.extendedProfile brightSource 200000000).getGoodImageSize (1/5) : ℤ))) →
      stampImageSize brightStampContext brightSource 200000000 1 3 1400 (1/5) =
        max (getGoodPhotImageSize (brightStampContext.extendedProfile brightSource 200000000) 3 (1/5)) 1400) ∧
    stampImageSize brightStampContext brightSource 200000000 1 3 1400 (1/5) ≤
      max 1400 (getGoodPhotImageSize (brightStampContext.extendedProfile brightSource 200000000) 3 (1/5)) := by
  have h10 : ¬ ((200000000 : ℚ) < 10) := by norm_num
  have hpt : ¬ (pyLower brightSource.galSimType = "pointsource") := by decide
  obtain ⟨h1, h2⟩ := c8_large_object_clamp brightStampContext brightSource
    200000000 1 3 1400 (1/5) h10 hpt
  exact ⟨h10, hpt, h1, h2⟩

/-! ### Claim theorems: dispatch and configuration errors (C3, C9) -/

/-- C3: a detector of the supplied list is in `findAllDetectors`' output iff
the conservative bounding box — centered on the source's pupil position with
side `(natural size) * conservative_factor` — strictly overlaps the
detector's pupil bounds on both axes, via `min(uppers) > max(lowers)`. -/
theorem c3_findAllDetectors_mem_iff {σ : Type} (C : Collab σ) (s : InterpState σ)
    (g : GSCelestialObject) (cf : ℚ) (os : Option String)
    (lst : List GalSimDetector) (prof : GSObjectProfile) (d : GalSimDetector)
    (hres : findAllDetectors C s g cf = .ok (os, lst, prof))
    (hd : d ∈ s.detectors) :
    d ∈ lst ↔
      (max (g.xPupilArcsec - (prof.getGoodImageSize 1 : ℚ) * cf / 2) d.xMinArcsec <
         min (g.xPupilArcsec + (prof.getGoodImageSize 1 : ℚ) * cf / 2) d.xMaxArcsec ∧
       max (g.yPupilArcsec - (prof.getGoodImageSize 1 : ℚ) * cf / 2) d.yMinArcsec <
         min (g.yPupilArcsec + (prof.getGoodImageSize 1 : ℚ) * cf / 2) d.yMaxArcsec) := by
  unfold findAllDetectors at hres
  cases hcc : createCenteredObject C g with
  | error e =>
    rw [hcc] at hres
    exact absurd hres (by simp)
  | ok centeredObj =>
    rw [hcc] at hres
    simp only [Except.ok.injEq, Prod.mk.injEq] at hres
    obtain ⟨_, hlst, hprof⟩ := hres
    rw [← hlst, ← hprof]
    rw [List.mem_filter]
    unfold overlapsBB
    rw [Bool.and_eq_true, decide_eq_true_eq, decide_eq_true_eq]
    constructor
    · intro h
      exact h.2
    · intro h
      exact ⟨hd, h⟩

/-- A trivial rendering/sampling collaborator over rng state `ℕ` whose
profiles all have natural size 1 and zero surface brightness. -/
def flatCollab : Collab ℕ :=
  ⟨fun r _ => (0, r), true,
   fun _ => ⟨fun _ => 1, fun _ _ => 0⟩, fun _ => ⟨fun _ => 1, fun _ _ => 0⟩,
   fun _ => ⟨fun _ => 1, fun _ _ => 0⟩, fun _ => ⟨fun _ => 1, fun _ _ => 0⟩,
   none, fun _ _ _ => (0, 0), fun _ _ _ _ r i => (i, r)⟩

/-- A detector covering pupil x,y in [-5, 5] arcsec with a 10x10 pixel grid. -/
def det1C : GalSimDetector := ⟨"d1", "R22_S11", -5, 5, -5, 5, 1, 10, 1, 10, 5, 5, 1⟩

/-- A detector far off at pupil x in [100, 110]. -/
def det2C : GalSimDetector := ⟨"d2", "R22_S12", 100, 110, -5, 5, 1, 10, 1, 10, 5, 5, 1⟩

/-- A point source at the pupil origin. -/
def srcC : GSCelestialObject := ⟨7, "pointSource", 0, 0, 0, 0, fun _ => 4⟩

/-- A fresh interpreter state over `det1C, det2C` with one band. -/
def stateC : InterpState ℕ := ⟨none, 1000, [det1C, det2C], ["u"], [], ∅, none, [], 0⟩

/-- C3 witness: the source at the origin with conservative box side 10
lands exactly on `det1C` (and not on the far detector), and the overlap
characterization holds there. -/
theorem c3_witness :
    findAllDetectors flatCollab stateC srcC 10 =
      .ok (some "d1", [det1C], flatCollab.pointOf srcC) ∧
    det1C ∈ stateC.detectors ∧
    (det1C ∈ [det1C] ↔
      (max (srcC.xPupilArcsec - ((flatCollab.pointOf srcC).getGoodImageSize 1 : ℚ) * 10 / 2)
          det1C.xMinArcsec <
         min (srcC.xPupilArcsec + ((flatCollab.pointOf srcC).getGoodImageSize 1 : ℚ) * 10 / 2)
          det1C.xMaxArcsec ∧
       max (srcC.yPupilArcsec - ((flatCollab.pointOf srcC).getGoodImageSize 1 : ℚ) * 10 / 2)
          det1C.yMinArcsec <
         min (srcC.yPupilArcsec + ((flatCollab.pointOf srcC).getGoodImageSize 1 : ℚ) * 10 / 2)
          det1C.yMaxArcsec)) := by
  have hres : findAllDetectors flatCollab stateC srcC 10 =
      .ok (some "d1", [det1C], flatCollab.pointOf srcC) := by
    unfold findAllDetectors createCenteredObject stateC srcC
    norm_num [flatCollab, overlapsBB, det1C, det2C, List.filter]
    intro h
    exact absurd h (by decide)
  have hd : det1C ∈ stateC.detectors := by
    unfold stateC
    exact List.mem_cons_self det1C [det2C]
  exact ⟨hres, hd, c3_findAllDetectors_mem_iff flatCollab stateC srcC 10
    (some "d1") [det1C] (flatCollab.pointOf srcC) det1C hres hd⟩

theorem createCenteredObject_unknown {σ : Type} (C : Collab σ)
    (g : GSCelestialObject)
    (h1 : g.galSimType ≠ "sersic") (h2 : g.galSimType ≠ "pointSource")
    (h3 : g.galSimType ≠ "RandomWalk") (h4 : g.galSimType ≠ "FitsImage") :
    createCenteredObject C g = .error
      ("Apologies: the GalSimInterpreter does not yet have a method to draw "
        ++ g.galSimType ++ " objects") := by
  unfold createCenteredObject
  rw [if_neg h1, if_neg h2, if_neg h3, if_neg h4]

theorem findAllDetectors_unknown {σ : Type} (C : Collab σ) (s : InterpState σ)
    (g : GSCelestialObject) (cf : ℚ)
    (h1 : g.galSimType ≠ "sersic") (h2 : g.galSimType ≠ "pointSource")
    (h3 : g.galSimType ≠ "RandomWalk") (h4 : g.galSimType ≠ "FitsImage") :
    findAllDetectors C s g cf = .error
      ("Apologies: the GalSimInterpreter does not yet have a method to draw "
        ++ g.galSimType ++ " objects") := by
  unfold findAllDetectors
  rw [createCenteredObject_unknown C g h1 h2 h3 h4]

theorem drawObject_unknown {σ : Type} (C : Collab σ) (s : InterpState σ)
    (g : GSCelestialObject)
    (h1 : g.galSimType ≠ "sersic") (h2 : g.galSimType ≠ "pointSource")
    (h3 : g.galSimType ≠ "RandomWalk") (h4 : g.galSimType ≠ "FitsImage") :
    drawObject C s g = .error
      ("Apologies: the GalSimInterpreter does not yet have a method to draw "
        ++ g.galSimType ++ " objects") := by
  unfold drawObject
  rw [findAllDetectors_unknown C s g 10 h1 h2 h3 h4]

/-- C9 (amended): passing no detectors raises at interpreter construction;
an unrecognized profile kind raises when the object is first processed —
inside `createCenteredObject`, reached from `drawObject` via
`findAllDetectors` — not at interpreter construction. -/
theorem c9_config_errors {σ : Type} (C : Collab σ) (ex : SiliconExtras σ)
    (s : InterpState σ) (bands : List String) (r0 : σ) (g : GSCelestialObject)
    (h1 : g.galSimType ≠ "sersic") (h2 : g.galSimType ≠ "pointSource")
    (h3 : g.galSimType ≠ "RandomWalk") (h4 : g.galSimType ≠ "FitsImage") :
    mkGalSimInterpreter none bands r0 = (.error
      ("Will not create images; you passed no detectors to the GalSimInterpreter")
      : Except String (InterpState σ)) ∧
    createCenteredObject C g = .error
      ("Apologies: the GalSimInterpreter does not yet have a method to draw "
        ++ g.galSimType ++ " objects") ∧
    drawObject C s g = .error
      ("Apologies: the GalSimInterpreter does not yet have a method to draw "
        ++ g.galSimType ++ " objects") ∧
    drawObjectSilicon C ex s g = .error
      ("Apologies: the GalSimInterpreter does not yet have a method to draw "
        ++ g.galSimType ++ " objects") := by
  refine ⟨rfl, createCenteredObject_unknown C g h1 h2 h3 h4,
    drawObject_unknown C s g h1 h2 h3 h4, ?_⟩
  unfold drawObjectSilicon
  rw [findAllDetectors_unknown C s g 10 h1 h2 h3 h4]

/-- A source whose profile kind string is not one of the four dispatched
kinds. -/
def unknownSource : GSCelestialObject := ⟨9, "weirdKind", 0, 0, 0, 0, fun _ => 4⟩

/-- Opaque silicon extras over rng state `ℕ`. -/
def flatExtras : SiliconExtras ℕ :=
  ⟨⟨100, 1/200, fun _ _ => ⟨fun _ => 1, fun _ _ => 0⟩, fun _ _ => ⟨fun _ => 1, fun _ _ => 0⟩⟩,
   fun q => q, fun _ _ _ _ _ r i => (i, r)⟩

/-- C9 witness: the amended error contract applied at a concrete
unrecognized-kind source. -/
theorem c9_witness :
    unknownSource.galSimType ≠ "sersic" ∧
    unknownSource.galSimType ≠ "pointSource" ∧
    unknownSource.galSimType ≠ "RandomWalk" ∧
    unknownSource.galSimType ≠ "FitsImage" ∧
    (mkGalSimInterpreter none ["u"] (0 : ℕ) = .error
      ("Will not create images; you passed no detectors to the GalSimInterpreter") ∧
     createCenteredObject flatCollab unknownSource = .error
      ("Apologies: the GalSimInterpreter does not yet have a method to draw "
        ++ unknownSource.galSimType ++ " objects") ∧
     drawObject flatCollab stateC unknownSource = .error
      ("Apologies: the GalSimInterpreter does not yet have a method to draw "
        ++ unknownSource.galSimType ++ " objects") ∧
     drawObjectSilicon flatCollab flatExtras stateC unknownSource = .error
      ("Apologies: the GalSimInterpreter does not yet have a method to draw "
        ++ unknownSource.galSimType ++ " objects")) := by
  exact ⟨by decide, by decide, by decide, by decide,
    c9_config_errors flatCollab flatExtras stateC ["u"] 0 unknownSource
      (by decide) (by decide) (by decide) (by decide)⟩

/-- C9 counterexample: interpreter construction succeeds while a source of
unrecognized kind exists — the unrecognized-kind error is raised only when
that source is drawn, refuting "at construction (not at draw time)". -/
theorem c9_cex_error_at_draw_not_construction :
    mkGalSimInterpreter (some [det1C, det2C]) ["u"] (0 : ℕ) = .ok stateC ∧
    drawObject flatCollab stateC unknownSource = .error
      ("Apologies: the GalSimInterpreter does not yet have a method to draw weirdKind objects") := by
  constructor
  · rfl
  · rw [drawObject_unknown flatCollab stateC unknownSource
      (by decide) (by decide) (by decide) (by decide)]
    rfl

/-! ### State-threading helper lemmas for the draw pipeline -/

theorem foldl_field_eq {α β γ : Type _} (f : α → β → α) (proj : α → γ)
    (h : ∀ a x, proj (f a x) = proj a) :
    ∀ (l : List β) (a : α), proj (List.foldl f a l) = proj a := by
  intro l
  induction l with
  | nil => intro a; rfl
  | cons x xs ih =>
    intro a
    rw [List.foldl_cons, ih, h]

theorem touchTarget_drawn {σ : Type} (C : Collab σ) (det : GalSimDetector)
    (b : String) (s : InterpState σ) :
    (touchTarget C det b s).drawn_objects = s.drawn_objects := by
  simp only [touchTarget]
  split <;> rfl

theorem touchTarget_centroid {σ : Type} (C : Collab σ) (det : GalSimDetector)
    (b : String) (s : InterpState σ) :
    (touchTarget C det b s).centroid_list = s.centroid_list := by
  simp only [touchTarget]
  split <;> rfl

theorem touchTarget_rng {σ : Type} (C : Collab σ) (det : GalSimDetector)
    (b : String) (s : InterpState σ) :
    (touchTarget C det b s).rng = s.rng := by
  simp only [touchTarget]
  split <;> rfl

theorem addNoiseAndBackground_drawn {σ : Type} (C : Collab σ)
    (s : InterpState σ) (dets : List GalSimDetector) :
    (addNoiseAndBackground C s dets).drawn_objects = s.drawn_objects := by
  unfold addNoiseAndBackground
  exact foldl_field_eq _ InterpState.drawn_objects
    (fun a det => foldl_field_eq _ InterpState.drawn_objects
      (fun a2 b => touchTarget_drawn C det b a2) s.bandpassNames a) dets s

theorem drawOnePair_drawn {σ : Type} (C : Collab σ) (g : GSCelestialObject)
    (prof : GSObjectProfile) (b : String) (rf : ℚ) (det : GalSimDetector)
    (acc : InterpState σ) :
    (drawOnePair C g prof b rf det acc).drawn_objects = acc.drawn_objects := by
  simp only [drawOnePair]

theorem drawOnePairSilicon_drawn {σ : Type} (C : Collab σ) (ex : SiliconExtras σ)
    (g : GSCelestialObject) (prof : GSObjectProfile) (b : String) (rf : ℚ)
    (det : GalSimDetector) (acc : InterpState σ) :
    (drawOnePairSilicon C ex g prof b rf det acc).drawn_objects = acc.drawn_objects := by
  simp only [drawOnePairSilicon]
  split <;> rfl

theorem drawDets_drawn {σ : Type} (C : Collab σ) (g : GSCelestialObject)
    (prof : GSObjectProfile) (b : String) (rf : ℚ) :
    ∀ (dets : List GalSimDetector) (s : InterpState σ),
      (dets.foldl (fun a2 det => drawOnePair C g prof b rf det a2) s).drawn_objects =
        s.drawn_objects := by
  intro dets
  induction dets with
  | nil => intro s; rfl
  | cons d ds ih =>
    intro s
    rw [List.foldl_cons, ih, drawOnePair_drawn]

theorem drawLoop_drawn {σ : Type} (C : Collab σ) (g : GSCelestialObject)
    (prof : GSObjectProfile) (pairs : List (String × ℚ))
    (dets : List GalSimDetector) (s : InterpState σ) :
    (pairs.foldl (fun acc p => dets.foldl
      (fun a2 det => drawOnePair C g prof p.1 p.2 det a2) acc) s).drawn_objects =
      s.drawn_objects := by
  induction pairs generalizing s with
  | nil => rfl
  | cons p ps ih =>
    rw [List.foldl_cons, ih, drawDets_drawn]

theorem drawDetsSilicon_drawn {σ : Type} (C : Collab σ) (ex : SiliconExtras σ)
    (g : GSCelestialObject) (prof : GSObjectProfile) (b : String) (rf : ℚ) :
    ∀ (dets : List GalSimDetector) (s : InterpState σ),
      (dets.foldl (fun a2 det => drawOnePairSilicon C ex g prof b rf det a2) s).drawn_objects =
        s.drawn_objects := by
  intro dets
  induction dets with
  | nil => intro s; rfl
  | cons d ds ih =>
    intro s
    rw [List.foldl_cons, ih, drawOnePairSilicon_drawn]

theorem drawLoopSilicon_drawn {σ : Type} (C : Collab σ) (ex : SiliconExtras σ)
    (g : GSCelestialObject) (prof : GSObjectProfile) (pairs : List (String × ℚ))
    (dets : List GalSimDetector) (s : InterpState σ) :
    (pairs.foldl (fun acc p => dets.foldl
      (fun a2 det => drawOnePairSilicon C ex g prof p.1 p.2 det a2) acc) s).drawn_objects =
      s.drawn_objects := by
  induction pairs generalizing s with
  | nil => rfl
  | cons p ps ih =>
    rw [List.foldl_cons, ih, drawDetsSilicon_drawn]

/-! ### Claim theorem: unconditional drawn-marking and zero-flux short-circuit (C4) -/

/-- C4: `drawObject` (both variants) adds the source id to the drawn set
unconditionally, before flux realization; if the realized flux is 0 in every
band it returns the dispatch string immediately, leaving the pixel buffers
and the centroid log untouched while the id stays in the drawn set and the
rng has advanced by the per-band Poisson draws. -/
theorem c4_drawn_unconditionally_and_zero_flux_shortcircuit :
    (∀ (σ : Type) (C : Collab σ) (s : InterpState σ) (g : GSCelestialObject)
      (os : Option String) (s' : InterpState σ),
      drawObject C s g = .ok (os, s') →
      (g.uniqueId ∈ s'.drawn_objects ∧
       (allZeroQ (realizeFluxes C.poisson s.rng (s.bandpassNames.map g.flux)).1 = true →
         s'.detectorImages = s.detectorImages ∧
         s'.centroid_list = s.centroid_list ∧
         s'.drawn_objects = insert g.uniqueId s.drawn_objects ∧
         s'.rng = (realizeFluxes C.poisson s.rng (s.bandpassNames.map g.flux)).2 ∧
         (∃ lst prof, findAllDetectors C s g 10 = .ok (os, lst, prof))))) ∧
    (∀ (σ : Type) (C : Collab σ) (ex : SiliconExtras σ) (s : InterpState σ)
      (g : GSCelestialObject) (os : Option String) (s' : InterpState σ),
      drawObjectSilicon C ex s g = .ok (os, s') →
      (g.uniqueId ∈ s'.drawn_objects ∧
       (allZeroQ (realizeFluxes C.poisson s.rng (s.bandpassNames.map g.flux)).1 = true →
         s'.detectorImages = s.detectorImages ∧
         s'.centroid_list = s.centroid_list ∧
         s'.drawn_objects = insert g.uniqueId s.drawn_objects ∧
         s'.rng = (realizeFluxes C.poisson s.rng (s.bandpassNames.map g.flux)).2 ∧
         (∃ lst prof, findAllDetectors C s g 10 = .ok (os, lst, prof))))) := by
  constructor
  · intro σ C s g os s' hdr
    unfold drawObject at hdr
    cases hfd : findAllDetectors C s g 10 with
    | error e =>
      rw [hfd] at hdr
      exact absurd hdr (by simp)
    | ok trip =>
      obtain ⟨os0, lst, prof⟩ := trip
      rw [hfd] at hdr
      simp only at hdr
      by_cases hz : allZeroQ (realizeFluxes C.poisson s.rng (s.bandpassNames.map g.flux)).1 = true
      · rw [if_pos hz] at hdr
        simp only [Except.ok.injEq, Prod.mk.injEq] at hdr
        obtain ⟨hos, hs'⟩ := hdr
        subst hos
        subst hs'
        refine ⟨Finset.mem_insert_self g.uniqueId s.drawn_objects, fun _ => ?_⟩
        exact ⟨rfl, rfl, rfl, rfl, lst, prof, rfl⟩
      · rw [if_neg hz] at hdr
        by_cases he : lst.isEmpty = true
        · rw [if_pos he] at hdr
          simp only [Except.ok.injEq, Prod.mk.injEq] at hdr
          obtain ⟨hos, hs'⟩ := hdr
          subst hs'
          exact ⟨Finset.mem_insert_self g.uniqueId s.drawn_objects,
            fun hz' => absurd hz' hz⟩
        · rw [if_neg he] at hdr
          simp only [Except.ok.injEq, Prod.mk.injEq] at hdr
          obtain ⟨hos, hs'⟩ := hdr
          subst hs'
          constructor
          · rw [drawLoop_drawn, addNoiseAndBackground_drawn]
            exact Finset.mem_insert_self g.uniqueId s.drawn_objects
          · intro hz'
            exact absurd hz' hz
  · intro σ C ex s g os s' hdr
    unfold drawObjectSilicon at hdr
    cases hfd : findAllDetectors C s g 10 with
    | error e =>
      rw [hfd] at hdr
      exact absurd hdr (by simp)
    | ok trip =>
      obtain ⟨os0, lst, prof⟩ := trip
      rw [hfd] at hdr
      simp only at hdr
      by_cases hz : allZeroQ (realizeFluxes C.poisson s.rng (s.bandpassNames.map g.flux)).1 = true
      · rw [if_pos hz] at hdr
        simp only [Except.ok.injEq, Prod.mk.injEq] at hdr
        obtain ⟨hos, hs'⟩ := hdr
        subst hos
        subst hs'
        refine ⟨Finset.mem_insert_self g.uniqueId s.drawn_objects, fun _ => ?_⟩
        exact ⟨rfl, rfl, rfl, rfl, lst, prof, rfl⟩
      · rw [if_neg hz] at hdr
        by_cases he : lst.isEmpty = true
        · rw [if_pos he] at hdr
          simp only [Except.ok.injEq, Prod.mk.injEq] at hdr
          obtain ⟨hos, hs'⟩ := hdr
          subst hs'
          exact ⟨Finset.mem_insert_self g.uniqueId s.drawn_objects,
            fun hz' => absurd hz' hz⟩
        · rw [if_neg he] at hdr
          simp only [Except.ok.injEq, Prod.mk.injEq] at hdr
          obtain ⟨hos, hs'⟩ := hdr
          subst hs'
          constructor
          · rw [drawLoopSilicon_drawn, addNoiseAndBackground_drawn]
            exact Finset.mem_insert_self g.uniqueId s.drawn_objects
          · intro hz'
            exact absurd hz' hz

/-- A source whose nominal flux is 0 in every band. -/
def zeroSource : GSCelestialObject := ⟨8, "pointSource", 0, 0, 0, 0, fun _ => 0⟩

/-- The state after drawing `zeroSource` on `stateC`: only the drawn set and
(here unchanged) rng move. -/
def c4ZeroState : InterpState ℕ := ⟨none, 1000, [det1C, det2C], ["u"], [], {8}, none, [], 0⟩

/-- C4 witness: a concrete all-zero-flux draw short-circuits, leaving images
and centroid log untouched while the id is recorded as drawn. -/
theorem c4_witness :
    drawObject flatCollab stateC zeroSource = .ok (some "d1", c4ZeroState) ∧
    allZeroQ (realizeFluxes flatCollab.poisson stateC.rng
      (stateC.bandpassNames.map zeroSource.flux)).1 = true ∧
    zeroSource.uniqueId ∈ c4ZeroState.drawn_objects ∧
    (c4ZeroState.detectorImages = stateC.detectorImages ∧
     c4ZeroState.centroid_list = stateC.centroid_list ∧
     c4ZeroState.drawn_objects = insert zeroSource.uniqueId stateC.drawn_objects ∧
     c4ZeroState.rng = (realizeFluxes flatCollab.poisson stateC.rng
       (stateC.bandpassNames.map zeroSource.flux)).2 ∧
     (∃ lst prof, findAllDetectors flatCollab stateC zeroSource 10 =
        .ok (some "d1", lst, prof))) := by
  have hfd : findAllDetectors flatCollab stateC zeroSource 10 =
      .ok (some "d1", [det1C], flatCollab.pointOf zeroSource) := by
    unfold findAllDetectors createCenteredObject stateC zeroSource
    norm_num [flatCollab, overlapsBB, det1C, det2C, List.filter]
    intro h
    exact absurd h (by decide)
  have hz : allZeroQ (realizeFluxes flatCollab.poisson stateC.rng
      (stateC.bandpassNames.map zeroSource.flux)).1 = true := by
    simp [allZeroQ, realizeFluxes, flatCollab, stateC, zeroSource]
  have hdr : drawObject flatCollab stateC zeroSource = .ok (some "d1", c4ZeroState) := by
    unfold drawObject
    rw [hfd]
    simp only [realizeFluxes, flatCollab, stateC, zeroSource]
    norm_num [allZeroQ, c4ZeroState]
  obtain ⟨hmem, himp⟩ := c4_drawn_unconditionally_and_zero_flux_shortcircuit.1
    ℕ flatCollab stateC zeroSource (some "d1") c4ZeroState hdr
  exact ⟨hdr, hz, hmem, himp hz⟩

/-! ### Claim theorem: one Poisson draw per band before any short-circuit (C10) -/

/-- Instrumentation of an arbitrary Poisson sampler that counts how many
draws are consumed. -/
def countingSampler {σ : Type} (P : σ → ℚ → ℚ × σ) :
    (σ × ℕ) → ℚ → ℚ × (σ × ℕ) :=
  fun rn m =>
    let vr := P rn.1 m
    (vr.1, (vr.2, rn.2 + 1))

theorem realizeFluxes_count {σ : Type} (P : σ → ℚ → ℚ × σ) :
    ∀ (means : List ℚ) (r : σ) (n : ℕ),
      ((realizeFluxes (countingSampler P) (r, n) means).2).2 = n + means.length := by
  intro means
  induction means with
  | nil => intro r n; rfl
  | cons m ms ih =>
    intro r n
    simp only [realizeFluxes, countingSampler]
    rw [ih]
    simp [List.length_cons]
    omega

/-- C10: the flux-realization phase draws exactly one Poisson sample per
configured band (the counting instrumentation advances by the number of
bands for every source), and it runs before either short-circuit decision:
whenever a source short-circuits (all-zero realization or empty detector
list), the final rng state is exactly the state after those per-band draws,
for both interpreter variants. -/
theorem c10_one_poisson_draw_per_band_before_shortcircuit :
    (∀ (σ : Type) (P : σ → ℚ → ℚ × σ) (r : σ) (n : ℕ) (means : List ℚ),
      ((realizeFluxes (countingSampler P) (r, n) means).2).2 = n + means.length) ∧
    (∀ (σ : Type) (C : Collab σ) (s : InterpState σ) (g : GSCelestialObject)
      (os : Option String) (s' : InterpState σ),
      drawObject C s g = .ok (os, s') →
      (allZeroQ (realizeFluxes C.poisson s.rng (s.bandpassNames.map g.flux)).1 = true ∨
        (∃ os2 prof, findAllDetectors C s g 10 = .ok (os2, [], prof))) →
      s'.rng = (realizeFluxes C.poisson s.rng (s.bandpassNames.map g.flux)).2) ∧
    (∀ (σ : Type) (C : Collab σ) (ex : SiliconExtras σ) (s : InterpState σ)
      (g : GSCelestialObject) (os : Option String) (s' : InterpState σ),
      drawObjectSilicon C ex s g = .ok (os, s') →
      (allZeroQ (realizeFluxes C.poisson s.rng (s.bandpassNames.map g.flux)).1 = true ∨
        (∃ os2 prof, findAllDetectors C s g 10 = .ok (os2, [], prof))) →
      s'.rng = (realizeFluxes C.poisson s.rng (s.bandpassNames.map g.flux)).2) := by
  refine ⟨fun σ P r n means => realizeFluxes_count P means r n, ?_, ?_⟩
  · intro σ C s g os s' hdr hsc
    unfold drawObject at hdr
    cases hfd : findAllDetectors C s g 10 with
    | error e =>
      rw [hfd] at hdr
      exact absurd hdr (by simp)
    | ok trip =>
      obtain ⟨os0, lst, prof⟩ := trip
      rw [hfd] at hdr
      simp only at hdr
      by_cases hz : allZeroQ (realizeFluxes C.poisson s.rng (s.bandpassNames.map g.flux)).1 = true
      · rw [if_pos hz] at hdr
        simp only [Except.ok.injEq, Prod.mk.injEq] at hdr
        obtain ⟨hos, hs'⟩ := hdr
        subst hs'
        rfl
      · rw [if_neg hz] at hdr
        cases hsc with
        | inl h => exact absurd h hz
        | inr h =>
          obtain ⟨os2, prof2, hfd2⟩ := h
          rw [hfd] at hfd2
          simp only [Except.ok.injEq, Prod.mk.injEq] at hfd2
          obtain ⟨_, hlst, _⟩ := hfd2
          rw [if_pos (by simp [hlst])] at hdr
          simp only [Except.ok.injEq, Prod.mk.injEq] at hdr
          obtain ⟨hos, hs'⟩ := hdr
          subst hs'
          rfl
  · intro σ C ex s g os s' hdr hsc
    unfold drawObjectSilicon at hdr
    cases hfd : findAllDetectors C s g 10 with
    | error e =>
      rw [hfd] at hdr
      exact absurd hdr (by simp)
    | ok trip =>
      obtain ⟨os0, lst, prof⟩ := trip
      rw [hfd] at hdr
      simp only at hdr
      by_cases hz : allZeroQ (realizeFluxes C.poisson s.rng (s.bandpassNames.map g.flux)).1 = true
      · rw [if_pos hz] at hdr
        simp only [Except.ok.injEq, Prod.mk.injEq] at hdr
        obtain ⟨hos, hs'⟩ := hdr
        subst hs'
        rfl
      · rw [if_neg hz] at hdr
        cases hsc with
        | inl h => exact absurd h hz
        | inr h =>
          obtain ⟨os2, prof2, hfd2⟩ := h
          rw [hfd] at hfd2
          simp only [Except.ok.injEq, Prod.mk.injEq] at hfd2
          obtain ⟨_, hlst, _⟩ := hfd2
          rw [if_pos (by simp [hlst])] at hdr
          simp only [Except.ok.injEq, Prod.mk.injEq] at hdr
          obtain ⟨hos, hs'⟩ := hdr
          subst hs'
          rfl

/-- C10 witness: the counting sampler advances by exactly 2 on a 2-band
realization, and a concrete all-zero-flux draw ends with the rng exactly
after the per-band draws. -/
theorem c10_witness :
    ((realizeFluxes (countingSampler (fun (r : ℕ) m => (m, r + 1))) (0, 0) [3, 5]).2).2 =
      0 + 2 ∧
    c4ZeroState.rng = (realizeFluxes flatCollab.poisson stateC.rng
      (stateC.bandpassNames.map zeroSource.flux)).2 := by
  constructor
  · exact c10_one_poisson_draw_per_band_before_shortcircuit.1
      ℕ (fun r m => (m, r + 1)) 0 0 [3, 5]
  · have hfd : findAllDetectors flatCollab stateC zeroSource 10 =
        .ok (some "d1", [det1C], flatCollab.pointOf zeroSource) := by
      unfold findAllDetectors createCenteredObject stateC zeroSource
      norm_num [flatCollab, overlapsBB, det1C, det2C, List.filter]
      intro h
      exact absurd h (by decide)
    have hz : allZeroQ (realizeFluxes flatCollab.poisson stateC.rng
        (stateC.bandpassNames.map zeroSource.flux)).1 = true := by
      simp [allZeroQ, realizeFluxes, flatCollab, stateC, zeroSource]
    have hdr : drawObject flatCollab stateC zeroSource = .ok (some "d1", c4ZeroState) := by
      unfold drawObject
      rw [hfd]
      simp only [realizeFluxes, flatCollab, stateC, zeroSource]
      norm_num [allZeroQ, c4ZeroState]
    exact c10_one_poisson_draw_per_band_before_shortcircuit.2.1
      ℕ flatCollab stateC zeroSource (some "d1") c4ZeroState hdr (Or.inl hz)

/-! ### Claim theorems: redraw after restore (C2) -/

/-- Overwrite the drawn set of a state. -/
def setDrawn {σ : Type} (s : InterpState σ) (D : Finset ℕ) : InterpState σ :=
  { s with drawn_objects := D }

theorem touchTarget_setDrawn {σ : Type} (C : Collab σ) (det : GalSimDetector)
    (b : String) (s : InterpState σ) (D : Finset ℕ) :
    touchTarget C det b (setDrawn s D) = setDrawn (touchTarget C det b s) D := by
  simp only [touchTarget, setDrawn]
  split <;> rfl

theorem drawOnePair_setDrawn {σ : Type} (C : Collab σ) (g : GSCelestialObject)
    (prof : GSObjectProfile) (b : String) (rf : ℚ) (det : GalSimDetector)
    (s : InterpState σ) (D : Finset ℕ) :
    drawOnePair C g prof b rf det (setDrawn s D) =
      setDrawn (drawOnePair C g prof b rf det s) D := by
  simp only [drawOnePair, setDrawn]

theorem touchLoop_setDrawn {σ : Type} (C : Collab σ) (det : GalSimDetector)
    (D : Finset ℕ) :
    ∀ (bands : List String) (a : InterpState σ),
      bands.foldl (fun a2 b => touchTarget C det b a2) (setDrawn a D) =
        setDrawn (bands.foldl (fun a2 b => touchTarget C det b a2) a) D := by
  intro bands
  induction bands with
  | nil => intro a; rfl
  | cons b bs ih =>
    intro a
    rw [List.foldl_cons, List.foldl_cons, touchTarget_setDrawn, ih]

theorem noiseLoop_setDrawn {σ : Type} (C : Collab σ) (bands : List String)
    (D : Finset ℕ) :
    ∀ (dets : List GalSimDetector) (a : InterpState σ),
      dets.foldl (fun acc det => bands.foldl (fun a2 b => touchTarget C det b a2) acc)
          (setDrawn a D) =
        setDrawn (dets.foldl
          (fun acc det => bands.foldl (fun a2 b => touchTarget C det b a2) acc) a) D := by
  intro dets
  induction dets with
  | nil => intro a; rfl
  | cons d ds ih =>
    intro a
    rw [List.foldl_cons, List.foldl_cons, touchLoop_setDrawn, ih]

theorem addNoise_setDrawn {σ : Type} (C : Collab σ) (s : InterpState σ)
    (dets : List GalSimDetector) (D : Finset ℕ) :
    addNoiseAndBackground C (setDrawn s D) dets =
      setDrawn (addNoiseAndBackground C s dets) D := by
  show dets.foldl
      (fun acc det => s.bandpassNames.foldl (fun a2 b => touchTarget C det b a2) acc)
      (setDrawn s D) =
    setDrawn (dets.foldl
      (fun acc det => s.bandpassNames.foldl (fun a2 b => touchTarget C det b a2) acc) s) D
  exact noiseLoop_setDrawn C s.bandpassNames D dets s

theorem drawDets_setDrawn {σ : Type} (C : Collab σ) (g : GSCelestialObject)
    (prof : GSObjectProfile) (b : String) (rf : ℚ) (D : Finset ℕ) :
    ∀ (dets : List GalSimDetector) (a : InterpState σ),
      dets.foldl (fun a2 det => drawOnePair C g prof b rf det a2) (setDrawn a D) =
        setDrawn (dets.foldl (fun a2 det => drawOnePair C g prof b rf det a2) a) D := by
  intro dets
  induction dets with
  | nil => intro a; rfl
  | cons d ds ih =>
    intro a
    rw [List.foldl_cons, List.foldl_cons, drawOnePair_setDrawn, ih]

theorem drawLoop_setDrawn {σ : Type} (C : Collab σ) (g : GSCelestialObject)
    (prof : GSObjectProfile) (dets : List GalSimDetector) (D : Finset ℕ) :
    ∀ (pairs : List (String × ℚ)) (a : InterpState σ),
      pairs.foldl (fun acc p => dets.foldl
          (fun a2 det => drawOnePair C g prof p.1 p.2 det a2) acc) (setDrawn a D) =
        setDrawn (pairs.foldl (fun acc p => dets.foldl
          (fun a2 det => drawOnePair C g prof p.1 p.2 det a2) acc) a) D := by
  intro pairs
  induction pairs with
  | nil => intro a; rfl
  | cons p ps ih =>
    intro a
    rw [List.foldl_cons, List.foldl_cons, drawDets_setDrawn, ih]

/-- C2 (amended): `drawObject` never consults the prior drawn set — its
return string, pixel buffers, centroid log and rng are identical whatever
`drawn_objects` holds (the drawn set itself just becomes
`insert id <whatever was there>`).  In particular, re-invoking it after a
restore on an already-drawn source re-runs the whole draw, re-accumulating
flux, instead of being a no-op; the at-most-once guarantee must come from
the caller consulting `drawn_objects`. -/
theorem c2_drawObject_ignores_prior_drawn_set {σ : Type} (C : Collab σ)
    (s : InterpState σ) (D : Finset ℕ) (g : GSCelestialObject) :
    drawObject C (setDrawn s D) g =
      Except.map (fun r => (r.1, setDrawn r.2 (insert g.uniqueId D)))
        (drawObject C s g) := by
  unfold drawObject
  have hfd0 : findAllDetectors C (setDrawn s D) g 10 = findAllDetectors C s g 10 := rfl
  rw [hfd0]
  cases hres : findAllDetectors C s g 10 with
  | error e => rfl
  | ok trip =>
    obtain ⟨os, lst, prof⟩ := trip
    simp only [Except.map, setDrawn]
    by_cases hz : allZeroQ (realizeFluxes C.poisson s.rng (s.bandpassNames.map g.flux)).1 = true
    · rw [if_pos hz, if_pos hz]
    · rw [if_neg hz, if_neg hz]
      by_cases he : lst.isEmpty = true
      · rw [if_pos he, if_pos he]
      · rw [if_neg he, if_neg he]
        have hcomm :
            (s.bandpassNames.zip (realizeFluxes C.poisson s.rng (s.bandpassNames.map g.flux)).1).foldl
              (fun acc p => lst.foldl
                (fun a2 det => drawOnePair C g prof p.1 p.2 det a2) acc)
              (addNoiseAndBackground C
                (setDrawn { s with
                  drawn_objects := insert g.uniqueId s.drawn_objects,
                  rng := (realizeFluxes C.poisson s.rng (s.bandpassNames.map g.flux)).2 }
                  (insert g.uniqueId D)) lst) =
            setDrawn
              ((s.bandpassNames.zip (realizeFluxes C.poisson s.rng (s.bandpassNames.map g.flux)).1).foldl
                (fun acc p => lst.foldl
                  (fun a2 det => drawOnePair C g prof p.1 p.2 det a2) acc)
                (addNoiseAndBackground C
                  { s with
                    drawn_objects := insert g.uniqueId s.drawn_objects,
                    rng := (realizeFluxes C.poisson s.rng (s.bandpassNames.map g.flux)).2 } lst))
              (insert g.uniqueId D) := by
          rw [addNoise_setDrawn, drawLoop_setDrawn]
        exact congrArg (fun t => Except.ok ((os, t) :
          Option String × InterpState σ)) hcomm

/-- A 1x1-pixel detector covering pupil [-5, 5]^2. -/
def detTiny : GalSimDetector := ⟨"d1", "R22_S11", -5, 5, -5, 5, 1, 1, 1, 1, 1, 1, 1⟩

/-- Concrete collaborators for the redraw counterexample: the Poisson sampler
realizes the mean exactly, and the photon shoot deposits the realized flux
into the (1x1) stamp. -/
def cexCollab : Collab ℕ :=
  ⟨fun r m => (m, r + 1), true,
   fun _ => ⟨fun _ => 1, fun _ _ => 0⟩, fun _ => ⟨fun _ => 1, fun _ _ => 0⟩,
   fun _ => ⟨fun _ => 1, fun _ _ => 0⟩, fun _ => ⟨fun _ => 1, fun _ _ => 0⟩,
   none, fun _ _ _ => (2, 2), fun _ rf _ _ r _ => (⟨[[rf]]⟩, r + 1)⟩

/-- A fresh interpreter (checkpoint file configured, no images yet). -/
def cexFresh : InterpState ℕ := ⟨some "chk", 1000, [detTiny], ["u"], [], ∅, none, [], 0⟩

/-- A checkpoint record persisting one buffer with pixel value 5, source 7
already drawn. -/
def cexRecord : CheckpointRecord ℕ := ⟨[("R22_S11_u.fits", [[5]])], 0, {7}, []⟩

/-- The `make_galsim_detector` collaborator of the restore. -/
def cexMkDet : String → GalSimDetector := fun _ => detTiny

/-- The state restored from `cexRecord` into the fresh interpreter. -/
def cexRestored : InterpState ℕ := restore_checkpoint cexMkDet (some cexRecord) cexFresh

theorem cexRestored_eq :
    cexRestored = ⟨some "chk", 1000, [detTiny], ["u"],
      [("R22_S11_u.fits", ⟨[[5]]⟩)], {7}, none, [], 0⟩ := by
  simp only [cexRestored, restore_checkpoint, cexRecord, cexFresh, cexMkDet,
    List.foldl_cons, List.foldl_nil, setImage, addArray, blankImage, detTiny,
    unmangleKey]
  norm_num

/-- C2 counterexample: source 7 is already in the restored DrawnSet, yet
`drawObject` re-draws it, changing the buffer contents from 5 to 4 (the
re-realized flux) — redrawing an already-drawn source is not a no-op. -/
theorem c2_cex_redraw_changes_buffers :
    (7 : ℕ) ∈ cexRestored.drawn_objects ∧
    cexRestored.detectorImages = [("R22_S11_u.fits", ⟨[[5]]⟩)] ∧
    (drawObject cexCollab cexRestored srcC).map (fun r => r.2.detectorImages) =
      .ok [("R22_S11_u.fits", ⟨[[4]]⟩)] ∧
    ¬ ((drawObject cexCollab cexRestored srcC).map (fun r => r.2.detectorImages) =
        .ok cexRestored.detectorImages) := by
  have hfd : findAllDetectors cexCollab cexRestored srcC 10 =
      .ok (some "d1", [detTiny], cexCollab.pointOf srcC) := by
    rw [cexRestored_eq]
    unfold findAllDetectors createCenteredObject srcC
    norm_num [cexCollab, overlapsBB, detTiny, List.filter]
    intro h
    exact absurd h (by decide)
  have hdr : drawObject cexCollab cexRestored srcC =
      .ok (some "d1", ⟨some "chk", 1000, [detTiny], ["u"],
        [("R22_S11_u.fits", ⟨[[4]]⟩)], {7}, none, [], 2⟩) := by
    unfold drawObject
    rw [hfd, cexRestored_eq]
    have happ : ("R22_S11" : String) ++ "_" ++ "u" ++ ".fits" = "R22_S11_u.fits" := rfl
    simp only [realizeFluxes, cexCollab, srcC]
    norm_num [allZeroQ, addNoiseAndBackground, touchTarget, lookupImage,
      getFileName, drawOnePair, setImage, detTiny, List.find?, happ, blankImage]
  refine ⟨?_, ?_, ?_, ?_⟩
  · rw [cexRestored_eq]
    decide
  · rw [cexRestored_eq]
  · rw [hdr]
    rfl
  · rw [hdr, cexRestored_eq]
    intro h
    simp only [Except.map, Except.ok.injEq, List.cons.injEq, Prod.mk.injEq,
      GSImage.mk.injEq] at h
    norm_num at h

/-! ### Claim theorem: checkpoint round-trip (C1) -/

theorem zipWith_add_zero_row :
    ∀ (row : List ℚ) (c : ℕ), c = row.length →
      List.zipWith (fun x y => x + y) (List.replicate c (0 : ℚ)) row = row := by
  intro row
  induction row with
  | nil =>
    intro c hc
    subst hc
    rfl
  | cons x xs ih =>
    intro c hc
    subst hc
    rw [List.length_cons, List.replicate_succ, List.zipWith_cons_cons, zero_add,
      ih xs.length rfl]

theorem zipWith_add_zero_of_shape :
    ∀ (r1 r2 : List ℚ), r1.length = r2.length → (∀ x ∈ r1, x = 0) →
      List.zipWith (fun x y => x + y) r1 r2 = r2 := by
  intro r1
  induction r1 with
  | nil =>
    intro r2 hlen _
    rw [List.zipWith_nil_left]
    exact (List.length_eq_zero.mp hlen.symm).symm
  | cons x xs ih =>
    intro r2 hlen hz
    cases r2 with
    | nil => exact absurd hlen (by simp)
    | cons y ys =>
      rw [List.zipWith_cons_cons]
      rw [hz x (List.mem_cons_self x xs), zero_add]
      rw [ih ys (by simpa using hlen) (fun z hzz => hz z (List.mem_cons_of_mem x hzz))]

theorem addArray_of_blank_shape :
    ∀ (bpix apix : PixArray),
      List.Forall₂ (fun r1 r2 => r1.length = r2.length) bpix apix →
      (∀ row ∈ bpix, ∀ x ∈ row, x = (0 : ℚ)) →
      addArray bpix apix = apix := by
  intro bpix apix hshape
  induction hshape with
  | nil => intro _; rfl
  | cons hlen htail ih =>
    intro hz
    unfold addArray
    rw [List.zipWith_cons_cons]
    have h1 := zipWith_add_zero_of_shape _ _ hlen
      (fun x hx => hz _ (List.mem_cons_self _ _) x hx)
    rw [h1]
    have h2 := ih (fun row hrow x hx => hz row (List.mem_cons_of_mem _ hrow) x hx)
    unfold addArray at h2
    rw [h2]

theorem blankImage_all_zero (det : GalSimDetector) :
    ∀ row ∈ (blankImage det).pix, ∀ x ∈ row, x = (0 : ℚ) := by
  intro row hrow x hx
  unfold blankImage at hrow
  simp only [List.mem_replicate] at hrow
  rw [hrow.2] at hx
  simp only [List.mem_replicate] at hx
  exact hx.2

theorem setImage_of_notmem (k : String) (v : GSImage) :
    ∀ (l : List (String × GSImage)), (∀ p ∈ l, p.1 ≠ k) →
      setImage l k v = l ++ [(k, v)] := by
  intro l
  induction l with
  | nil => intro _; rfl
  | cons p rest ih =>
    intro h
    unfold setImage
    rw [if_neg (h p (List.mem_cons_self p rest))]
    rw [ih (fun q hq => h q (List.mem_cons_of_mem p hq))]
    rfl

theorem foldl_setImage_append (f : String × PixArray → GSImage) :
    ∀ (l : List (String × PixArray)) (acc : List (String × GSImage)),
      (l.map Prod.fst).Nodup → (∀ p ∈ l, ∀ q ∈ acc, q.1 ≠ p.1) →
      l.foldl (fun a p => setImage a p.1 (f p)) acc =
        acc ++ l.map (fun p => (p.1, f p)) := by
  intro l
  induction l with
  | nil =>
    intro acc _ _
    simp
  | cons p rest ih =>
    intro acc hnodup hdisj
    rw [List.foldl_cons]
    have hstep : setImage acc p.1 (f p) = acc ++ [(p.1, f p)] :=
      setImage_of_notmem p.1 (f p) acc
        (fun q hq => hdisj p (List.mem_cons_self p rest) q hq)
    rw [hstep]
    have hnodup' : (rest.map Prod.fst).Nodup := by
      rw [List.map_cons] at hnodup
      exact (List.nodup_cons.mp hnodup).2
    have hhead : p.1 ∉ rest.map Prod.fst := by
      rw [List.map_cons] at hnodup
      exact (List.nodup_cons.mp hnodup).1
    have hdisj' : ∀ p' ∈ rest, ∀ q ∈ acc ++ [(p.1, f p)], q.1 ≠ p'.1 := by
      intro p' hp' q hq
      rcases List.mem_append.mp hq with hqa | hqx
      · exact hdisj p' (List.mem_cons_of_mem p hp') q hqa
      · have hq1 : q = (p.1, f p) := by simpa using hqx
        rw [hq1]
        intro hcontra
        exact hhead (hcontra ▸ List.mem_map_of_mem Prod.fst hp')
    rw [ih (acc ++ [(p.1, f p)]) hnodup' hdisj']
    rw [List.append_assoc, List.map_cons]
    rfl

/-- C1: writing a checkpoint (whenever the configured-file cadence/force
check emits a record) and restoring it into a fresh interpreter reproduces
identical pixel contents for every persisted buffer (in insertion order),
identical DrawnSet, identical rng state and the centroid list in original
order — provided the detector geometry the restore rebuilds from the
unmangled key has the persisted buffer's pixel shape (the caller re-supplies
the same camera configuration). -/
theorem c1_checkpoint_roundtrip {σ : Type} (mk_det : String → GalSimDetector)
    (s fresh : InterpState σ) (force : Bool) (cp : CheckpointRecord σ)
    (hw : write_checkpoint s force none = some cp)
    (hfresh : fresh.detectorImages = [])
    (hnodup : (s.detectorImages.map Prod.fst).Nodup)
    (hgeom : ∀ p ∈ s.detectorImages,
      List.Forall₂ (fun r1 r2 => r1.length = r2.length)
        (blankImage (mk_det (unmangleKey p.1))).pix p.2.pix) :
    (restore_checkpoint mk_det (some cp) fresh).detectorImages = s.detectorImages ∧
    (restore_checkpoint mk_det (some cp) fresh).rng = s.rng ∧
    (restore_checkpoint mk_det (some cp) fresh).drawn_objects = s.drawn_objects ∧
    (restore_checkpoint mk_det (some cp) fresh).centroid_list = s.centroid_list := by
  unfold write_checkpoint at hw
  cases hcf : s.checkpoint_file with
  | none =>
    rw [hcf] at hw
    exact absurd hw (by simp)
  | some f =>
    rw [hcf] at hw
    by_cases hcond : force = true ∨ s.drawn_objects.card % s.nobj_checkpoint = 0
    · rw [if_pos hcond] at hw
      simp only [Option.some.injEq] at hw
      have himg : cp.images = s.detectorImages.map (fun p => (p.1, p.2.pix)) := by
        rw [← hw]
      have hrng : cp.rng = s.rng := by rw [← hw]
      have hdrawn : cp.drawn_objects = s.drawn_objects := by rw [← hw]
      have hcent : cp.centroid_objects = s.centroid_list := by rw [← hw]
      have hmain : (restore_checkpoint mk_det (some cp) fresh).detectorImages =
          s.detectorImages := by
        show (cp.images.foldl (fun acc p =>
          setImage acc p.1 ⟨addArray (blankImage (mk_det (unmangleKey p.1))).pix p.2⟩)
          fresh.detectorImages) = s.detectorImages
        rw [hfresh, himg]
        rw [foldl_setImage_append
          (fun p => ⟨addArray (blankImage (mk_det (unmangleKey p.1))).pix p.2⟩)
          (s.detectorImages.map (fun p => (p.1, p.2.pix))) []
          (by rw [List.map_map]; exact hnodup)
          (fun p _ q hq => absurd hq (List.not_mem_nil q))]
        rw [List.nil_append, List.map_map]
        have hcongr : ∀ p ∈ s.detectorImages,
            ((fun p => ((p.1 : String),
                (⟨addArray (blankImage (mk_det (unmangleKey p.1))).pix p.2⟩ : GSImage))) ∘
              (fun p => (p.1, p.2.pix))) p = p := by
          intro p hp
          simp only [Function.comp]
          have hadd : addArray (blankImage (mk_det (unmangleKey p.1))).pix p.2.pix =
              p.2.pix :=
            addArray_of_blank_shape _ _ (hgeom p hp)
              (blankImage_all_zero (mk_det (unmangleKey p.1)))
          rw [hadd]
        rw [List.map_congr_left hcongr]
        exact List.map_id s.detectorImages
      exact ⟨hmain, by show cp.rng = s.rng; exact hrng,
        by show cp.drawn_objects = s.drawn_objects; exact hdrawn,
        by show cp.centroid_objects = s.centroid_list; exact hcent⟩
    · rw [if_neg hcond] at hw
      exact absurd hw (by simp)

/-- A state with one populated buffer, a drawn source, a centroid entry and
a nontrivial rng, checkpoint file configured. -/
def c1State : InterpState ℕ := ⟨some "chk", 1000, [detTiny], ["u"],
  [("R22_S11_u.fits", ⟨[[5]]⟩)], {7}, none, [("R22_S11", "u", 7, 4, 2, 2)], 3⟩

/-- The checkpoint record `write_checkpoint` produces for `c1State`. -/
def c1Record : CheckpointRecord ℕ :=
  ⟨[("R22_S11_u.fits", [[5]])], 3, {7}, [("R22_S11", "u", 7, 4, 2, 2)]⟩

/-- C1 witness: a concrete forced write followed by a restore into a fresh
interpreter reproduces the buffer, drawn set, rng and centroid log. -/
theorem c1_witness :
    write_checkpoint c1State true none = some c1Record ∧
    cexFresh.detectorImages = [] ∧
    (restore_checkpoint cexMkDet (some c1Record) cexFresh).detectorImages =
      c1State.detectorImages ∧
    (restore_checkpoint cexMkDet (some c1Record) cexFresh).rng = c1State.rng ∧
    (restore_checkpoint cexMkDet (some c1Record) cexFresh).drawn_objects =
      c1State.drawn_objects ∧
    (restore_checkpoint cexMkDet (some c1Record) cexFresh).centroid_list =
      c1State.centroid_list := by
  have hw : write_checkpoint c1State true none = some c1Record := by
    simp [write_checkpoint, c1State, c1Record]
  have hnodup : (c1State.detectorImages.map Prod.fst).Nodup := by
    simp [c1State]
  have hgeom : ∀ p ∈ c1State.detectorImages,
      List.Forall₂ (fun r1 r2 => r1.length = r2.length)
        (blankImage (cexMkDet (unmangleKey p.1))).pix p.2.pix := by
    intro p hp
    simp only [c1State, List.mem_singleton] at hp
    subst hp
    have hblank : (blankImage (cexMkDet (unmangleKey "R22_S11_u.fits"))).pix =
        [[0]] := by
      norm_num [blankImage, cexMkDet, detTiny]
    rw [hblank]
    exact List.Forall₂.cons (by norm_num) List.Forall₂.nil
  obtain ⟨h1, h2, h3, h4⟩ := c1_checkpoint_roundtrip cexMkDet c1State cexFresh
    true c1Record hw rfl hnodup hgeom
  exact ⟨hw, rfl, h1, h2, h3, h4⟩

end GalSimSpec
